import Mathlib

/-!
Verification of the station/record resolution core of the korea-opendata-mcp
repository. The TypeScript source is shallowly embedded: JavaScript numbers
are modelled as exact rationals (`ℚ`), `parseFloat`-style NaN results as
`Option ℚ` (`none` = NaN), thrown exceptions as `Except String`, and host
primitives (clock, locale formatting, `Math.random`) as explicit parameters.
Every definition mirrors the corresponding source function; the module
structure follows the source files.
-/

namespace KOD

/-! ## JavaScript primitives

Helpers modelling the JavaScript standard-library behaviour the source code
relies on.  `jsParseFloat` implements `parseFloat` on decimal literals
(longest valid prefix after leading-whitespace skip; `none` plays the role of
NaN).  The `Infinity` literal is not modelled: every caller in the embedded
code either guards with `Number.isFinite` (where `Infinity` behaves like NaN,
i.e. is rejected) or never receives it in the claims under study.  `jsRound`
is `Math.round` (half towards +∞) and `jsToFixed` is `Number.prototype.toFixed`
(nearest, ties towards the larger integer scaled value). -/

/-- Numeric value of a list of decimal digit characters. -/
def digitsVal (cs : List Char) : ℕ :=
  cs.foldl (fun a c => a * 10 + (c.toNat - 48)) 0

/-- JavaScript `String.prototype.trim` (structural implementation over the
character list, so that proofs can evaluate it). -/
def jsTrim (s : String) : String :=
  String.mk (((s.data.dropWhile (fun c => c.isWhitespace)).reverse.dropWhile
    (fun c => c.isWhitespace)).reverse)

/-- JavaScript `String.prototype.toLowerCase` (ASCII letters; Hangul has no
case). -/
def jsToLower (s : String) : String :=
  String.mk (s.data.map Char.toLower)

/-- Fuel-indexed replace-all over character lists (left-to-right,
non-overlapping occurrences of a non-empty pattern). -/
def replaceFuel (pat rep : List Char) : ℕ → List Char → List Char
  | 0, l => l
  | _ + 1, [] => []
  | fuel + 1, c :: rest =>
    if pat ≠ [] ∧ pat.isPrefixOf (c :: rest) then
      rep ++ replaceFuel pat rep fuel ((c :: rest).drop pat.length)
    else c :: replaceFuel pat rep fuel rest

/-- JavaScript `replace(new RegExp(pattern, 'g'), replacement)` for a plain
(metacharacter-free, non-empty) pattern. -/
def strReplaceAll (s pat rep : String) : String :=
  String.mk (replaceFuel pat.data rep.data s.data.length s.data)

/-- JavaScript `parseFloat` on decimal notation; `none` models NaN. -/
def jsParseFloat (s : String) : Option ℚ :=
  let cs := s.data.dropWhile (fun c => c.isWhitespace)
  let sgn : ℚ × List Char :=
    match cs with
    | '-' :: r => (-1, r)
    | '+' :: r => (1, r)
    | r => (1, r)
  let ip := sgn.2.takeWhile (fun c => c.isDigit)
  let rest := sgn.2.dropWhile (fun c => c.isDigit)
  let fracState : List Char × List Char :=
    match rest with
    | '.' :: r => (r.takeWhile (fun c => c.isDigit), r.dropWhile (fun c => c.isDigit))
    | r => ([], r)
  let fp := fracState.1
  if ip.isEmpty ∧ fp.isEmpty then none
  else
    let mant : ℚ := (digitsVal ip : ℚ) + (digitsVal fp : ℚ) / ((10 : ℚ) ^ fp.length)
    let expPart : ℤ :=
      match fracState.2 with
      | c :: r =>
        if c = 'e' ∨ c = 'E' then
          match r with
          | '-' :: d =>
            if (d.takeWhile (fun x => x.isDigit)).isEmpty then 0
            else -(digitsVal (d.takeWhile (fun x => x.isDigit)) : ℤ)
          | '+' :: d =>
            if (d.takeWhile (fun x => x.isDigit)).isEmpty then 0
            else (digitsVal (d.takeWhile (fun x => x.isDigit)) : ℤ)
          | d =>
            if (d.takeWhile (fun x => x.isDigit)).isEmpty then 0
            else (digitsVal (d.takeWhile (fun x => x.isDigit)) : ℤ)
        else 0
      | [] => 0
    let scaled : ℚ :=
      if 0 ≤ expPart then mant * (10 : ℚ) ^ expPart.toNat
      else mant / (10 : ℚ) ^ (-expPart).toNat
    some (sgn.1 * scaled)

/-- JavaScript `Math.round`: round half towards +∞. -/
def jsRound (q : ℚ) : ℤ := ⌊q + 1 / 2⌋

/-- JavaScript `Number.prototype.toFixed(digits)` (ties rounded to the
larger scaled integer, i.e. towards +∞). -/
def jsToFixed (digits : ℕ) (q : ℚ) : String :=
  let p : ℚ := (10 : ℚ) ^ digits
  let n : ℤ := ⌊q * p + 1 / 2⌋
  let m : ℕ := n.natAbs
  let ipart : ℕ := m / 10 ^ digits
  let fpart : ℕ := m % 10 ^ digits
  let fstr := toString fpart
  let fpad := String.mk (List.replicate (digits - fstr.length) '0') ++ fstr
  (if n < 0 then "-" else "") ++ toString ipart ++
    (if digits = 0 then "" else "." ++ fpad)

/-- `toFixed(1)`, the variant used throughout the source. -/
def jsToFixed1 (q : ℚ) : String := jsToFixed 1 q

/-- JavaScript `String.prototype.includes` (contiguous substring test). -/
def strIncludes (s pat : String) : Bool := decide (List.IsInfix pat.data s.data)

/-- JavaScript string truthiness helpers: `undefined`/`null`/`""` are falsy. -/
def orElseStr (a : Option String) (b : String) : String :=
  match a with
  | some s => if s = "" then b else s
  | none => b

/-- First truthy (present and non-empty) string among the options. -/
def firstTruthy (l : List (Option String)) : Option String :=
  match l with
  | [] => none
  | a :: r =>
    match a with
    | some s => if s = "" then firstTruthy r else some s
    | none => firstTruthy r

/-! ## `src/apis/utils/timeSeriesAnalyzer.ts`

Time-series entries are duck-typed records in the source; they are modelled
as association lists from field name to a JavaScript value (string, number or
null/undefined-absent).  `extractValue` returns `none` where the source
returns NaN (including the `Number.isFinite` rejection of `Infinity`). -/

/-- A dynamic JavaScript field value as consumed by the analyzer. -/
inductive JSVal where
  | null : JSVal
  | str (s : String) : JSVal
  | num (q : ℚ) : JSVal
  deriving DecidableEq, Repr

/-- A duck-typed record: association list from field name to value. -/
def TSEntry := List (String × JSVal)

instance : DecidableEq TSEntry := by
  unfold TSEntry
  infer_instance

/-- Field lookup, JavaScript `entry[key]`: first binding wins, absent = null. -/
def tsGet (e : TSEntry) (key : String) : JSVal :=
  match e.find? (fun p => p.1 = key) with
  | some p => p.2
  | none => JSVal.null

/-- Result shape of `TimeSeriesAnalyzer.analyzeTrend`. -/
structure TrendAnalysis where
  direction : String
  change : ℚ
  percentage : ℚ
  description : String
  deriving DecidableEq, Repr

namespace TimeSeriesAnalyzer

/-- Model of `TimeSeriesAnalyzer.extractValue`: try the field names in order;
skip absent/null/empty values; return the first parse that is a finite number
(`none` = NaN). `String(raw)` of a number field parses back to the same
rational, so numeric fields are returned directly. -/
def extractValue (entry : TSEntry) (fields : List String) : Option ℚ :=
  match fields with
  | [] => none
  | key :: rest =>
    match tsGet entry key with
    | JSVal.null => extractValue entry rest
    | JSVal.num q => some q
    | JSVal.str s =>
      if s = "" then extractValue entry rest
      else
        match jsParseFloat s with
        | some v => some v
        | none => extractValue entry rest

/-- The neutral "insufficient data" result of `analyzeTrend`. -/
def neutralTrend : TrendAnalysis :=
  { direction := "안정", change := 0, percentage := 0, description := "데이터 부족" }

/-- Model of `TimeSeriesAnalyzer.analyzeTrend` (the `valueField` union type
is modelled as the field-name list the source normalises it to). -/
def analyzeTrend (data : List TSEntry) (valueField : List String) : TrendAnalysis :=
  if data.length < 2 then neutralTrend
  else
    match data with
    | e0 :: e1 :: _ =>
      match extractValue e0 valueField, extractValue e1 valueField with
      | some latest, some previous =>
        let change := latest - previous
        let percentage := if previous ≠ 0 then change / previous * 100 else 0
        if 1 / 10 ≤ |change| then
          if 0 < change then
            { direction := "상승", change, percentage,
              description := jsToFixed1 change ++ " 증가" }
          else
            { direction := "하강", change, percentage,
              description := jsToFixed1 |change| ++ " 감소" }
        else
          { direction := "안정", change, percentage, description := "변화 없음" }
      | _, _ => neutralTrend
    | _ => neutralTrend

/-- Model of `TimeSeriesAnalyzer.extractTimestamp`. -/
def extractTimestamp (entry : TSEntry) : String :=
  match tsGet entry "ymdhm" with
  | JSVal.str s => s
  | _ =>
    match tsGet entry "obsTime" with
    | JSVal.str s => s
    | _ =>
      match tsGet entry "timestamp" with
      | JSVal.str s => s
      | _ => ""

end TimeSeriesAnalyzer

/-! ## `src/apis/types/floodcontrol.types.ts` -/

/-- The three telemetry kinds. -/
inductive StationType where
  | dam
  | waterlevel
  | rainfall
  deriving DecidableEq, Repr

/-- Static alias table `STATION_CODE_MAPPING` (entries in source order;
JavaScript object lookup is exact string-key lookup, iteration follows
insertion order). -/
def STATION_CODE_MAPPING : StationType → List (String × String)
  | StationType.dam =>
    [("대청댐", "3008110"), ("대청호", "3008110"), ("소양댐", "1010690"),
     ("소양강댐", "1010690"), ("소양호", "1010690"), ("충주댐", "1003110"),
     ("충주호", "1003110"), ("남강댐", "2018110"), ("남강호", "2018110"),
     ("광동댐", "1001210"), ("충주조정지댐", "1003611"), ("괴산댐", "1004310"),
     ("횡성댐", "1006110"), ("평화의댐", "1009710"), ("화천댐", "1010310"),
     ("춘천댐", "1010320"), ("의암댐", "1013310"), ("청평댐", "1015310"),
     ("팔당댐", "1010301"), ("군남댐", "1021701"), ("한탄강댐", "1022701"),
     ("달방댐", "1302210"), ("안동댐", "2001110"), ("안동댐조정지", "2001611"),
     ("임하댐", "2002110"), ("성덕댐", "2002111"), ("임하댐조정지", "2002610"),
     ("영주댐", "2004101"), ("군위댐", "2008110"), ("김천부항댐", "2010101"),
     ("보현산댐", "2012101"), ("영천댐", "2012210"), ("합천댐", "2015110"),
     ("합천댐조정지", "2018611"), ("밀양댐", "2021110"), ("운문댐", "2021210"),
     ("대곡댐", "2201231"), ("회야댐", "2301211"), ("감포댐", "2403201"),
     ("연초댐", "2503210"), ("구천댐", "2503220"), ("용담댐", "3001110"),
     ("대청댐조정지", "3008611"), ("금강하구둑", "3014410"), ("보령댐", "3203310"),
     ("구이", "3301651"), ("섬진강댐", "4001110"), ("주암댐", "4007110"),
     ("광주댐", "5001410"), ("담양댐", "5001420"), ("담양3조절지", "5001600"),
     ("담양2조절지", "5001604"), ("담양1조절지", "5001608"),
     ("담양홍수조절지", "5001701"), ("장성댐", "5002410"), ("나주댐", "5003410"),
     ("화순1조절지", "5003619"), ("화순2조절지", "5003630"),
     ("화순홍수조절지", "5003701"), ("장흥댐", "5101110")]
  | StationType.waterlevel =>
    [("대청댐", "3008690"), ("대청호", "3008690"), ("소양댐", "1010690"),
     ("소양강댐", "1010690"), ("소양호", "1010690"), ("충주댐", "1003666"),
     ("충주호", "1003666"), ("남강댐", "2018698"), ("남강호", "2018698"),
     ("평림댐", "5002201"), ("한강대교", "1018683")]
  | StationType.rainfall =>
    [("대청댐", "3008690"), ("대청호", "3008690"), ("소양댐", "1010690"),
     ("소양강댐", "1010690"), ("소양호", "1010690"), ("충주댐", "1003666"),
     ("충주호", "1003666"), ("평림댐", "5002201")]

/-- Result shape of `analyzeWaterLevel`.  Numeric fields use `Option ℚ`:
`none` stands for `null` (`level_difference` of the insufficient-information
branch) and for NaN values that flow through the dam resolver when the
flood-limit field of the upstream record is a non-numeric string. -/
structure WaterLevelAnalysis where
  status : String
  message : String
  level_difference : Option ℚ
  percentage_difference : Option ℚ
  risk_level : String
  flood_limit_level : Option ℚ
  deriving DecidableEq, Repr

/-- The `primary_station` part of `IntegratedResponse.detailed_data`. -/
structure PrimaryStation where
  name : String
  code : String
  current_level : Option String := none
  current_rainfall : Option String := none
  storage_rate : Option String := none
  status : Option String := none
  trend : Option String := none
  last_updated : Option String := none
  inflow : Option String := none
  outflow : Option String := none
  current_storage : Option String := none
  total_storage : Option String := none
  flood_limit_level : Option String := none
  water_level_analysis : Option WaterLevelAnalysis := none
  deriving DecidableEq, Repr

/-- The optional `water_level_station` part of the response. -/
structure WaterLevelStation where
  name : String
  code : String
  current_level : Option String := none
  last_updated : Option String := none
  deriving DecidableEq, Repr

/-- One entry of `related_stations`. -/
structure RelatedStation where
  name : String
  code : String
  current_level : Option String := none
  status : Option String := none
  deriving DecidableEq, Repr

/-- `RainfallData` (shape taken from the resolver and response builders). -/
structure RainfallData where
  stationName : String
  stationCode : String
  currentRainfall : ℚ
  hourlyRainfall : ℚ
  dailyRainfall : ℚ
  timestamp : String
  status : String
  deriving DecidableEq, Repr

/-- `WaterLevelData` value object. -/
structure WaterLevelData where
  obs_code : String
  obs_time : String
  water_level : ℚ
  unit : String
  deriving DecidableEq, Repr

/-- The dam reading assembled by `resolveDamRecord` (typed `any` in the
source).  `Option ℚ` fields: `none` models a NaN produced by `parseFloat`
on a truthy but non-numeric upstream string. -/
structure DamData where
  obs_code : String
  obs_time : String
  water_level : ℚ
  inflow : Option ℚ
  outflow : Option ℚ
  current_storage : Option ℚ
  flood_control_capacity : Option ℚ
  flood_limit_level : Option ℚ
  water_level_analysis : WaterLevelAnalysis
  unit : String
  deriving DecidableEq, Repr

/-- `IntegratedResponse.detailed_data`. -/
structure DetailedData where
  type : Option String := none
  primary_station : PrimaryStation
  water_level_station : Option WaterLevelStation := none
  related_stations : Option (List RelatedStation) := none
  rainfall_details : Option RainfallData := none
  deriving DecidableEq, Repr

/-- `IntegratedResponse`: the single answer structure built per query. -/
structure IntegratedResponse where
  status : String
  summary : String
  direct_answer : String
  detailed_data : DetailedData
  timestamp : String
  deriving DecidableEq, Repr

/-! ## Host primitives

The embedding is parametric in the behaviour of the JavaScript host: the
clock (`Date`), locale formatting (`toLocaleString`) and `Math.random`.
These appear in the source only to produce display strings and timestamps;
no claim under study depends on their concrete values. -/

/-- Host-environment primitives used by the response builders. -/
structure Host where
  /-- `new Date().toISOString()` at the moment of the call. -/
  nowISO : String
  /-- `new Date().toLocaleString('ko-KR', ...)` at the moment of the call. -/
  nowLocaleKo : String
  /-- The `Math.random()` draw consumed by `determineTrend`. -/
  random : ℚ
  /-- Date parsing plus Korean locale rendering of a non-empty trimmed
  timestamp (the host-dependent core of `formatToKoreanTime`). -/
  koTime : String → String
  /-- Date parsing plus `toISOString` (`obsTimeToISOString` core); `none`
  models an invalid date. -/
  toISO : String → Option String
  /-- `new Date(s).getTime()`; `none` models NaN. -/
  dateMillis : String → Option ℤ
  /-- `toLocaleString('ko-KR')` of an integral number. -/
  localeInt : ℚ → String
  /-- `toLocaleString('ko-KR', {minimumFractionDigits: 1, ...})`. -/
  localeFrac : ℚ → String
  /-- JavaScript `String(number)` rendering of a finite number. -/
  numStr : ℚ → String
  /-- `a.localeCompare(b, 'ko-KR') <= 0`. -/
  koLe : String → String → Bool

/-! ## `src/apis/data/damCapacity.ts` -/

/-- Static per-dam capacity reference record. -/
structure DamCapacityInfo where
  name : String
  totalCapacity : ℚ
  watershed : String
  deriving DecidableEq, Repr

/-- `DAM_CAPACITY_DATA`, keyed by dam code, in source order. -/
def DAM_CAPACITY_DATA : List (String × DamCapacityInfo) :=
  [("1012110", ⟨"소양강댐", 2900, "한강 수계"⟩),
   ("1003110", ⟨"충주댐", 2750, "한강 수계"⟩),
   ("1009710", ⟨"평화의댐", 2630, "한강 수계"⟩),
   ("1022701", ⟨"한탄강댐", 270, "한강 수계"⟩),
   ("1015310", ⟨"청평댐", 185, "한강 수계"⟩),
   ("1010320", ⟨"춘천댐", 149, "한강 수계"⟩),
   ("1006110", ⟨"횡성댐", 87, "한강 수계"⟩),
   ("1013310", ⟨"의암댐", 80, "한강 수계"⟩),
   ("1021701", ⟨"군남댐", 716 / 10, "한강 수계"⟩),
   ("1017310", ⟨"팔당댐", 244, "한강 수계"⟩),
   ("1010310", ⟨"화천댐", 1018, "한강 수계"⟩),
   ("1001210", ⟨"광동댐", 1323 / 100, "한강 수계"⟩),
   ("3008110", ⟨"대청댐", 1490, "금강 수계"⟩),
   ("3001110", ⟨"용담댐", 815, "금강 수계"⟩),
   ("3203310", ⟨"보령댐", 117, "금강 수계"⟩),
   ("1004310", ⟨"괴산댐", 55, "금강 수계"⟩),
   ("2001110", ⟨"안동댐", 1248, "낙동강 수계"⟩),
   ("2015110", ⟨"합천댐", 790, "낙동강 수계"⟩),
   ("2002110", ⟨"임하댐", 595, "낙동강 수계"⟩),
   ("2018110", ⟨"남강댐", 309, "낙동강 수계"⟩),
   ("2004101", ⟨"영주댐", 181, "낙동강 수계"⟩),
   ("2021210", ⟨"운문댐", 74, "낙동강 수계"⟩),
   ("2021110", ⟨"밀양댐", 74, "낙동강 수계"⟩),
   ("2008110", ⟨"군위댐", 49, "낙동강 수계"⟩),
   ("2010101", ⟨"김천부항댐", 54, "낙동강 수계"⟩),
   ("2012101", ⟨"보현산댐", 22, "낙동강 수계"⟩),
   ("2012210", ⟨"영천댐", 664 / 10, "낙동강 수계"⟩),
   ("2002111", ⟨"성덕댐", 28, "낙동강 수계"⟩),
   ("2201231", ⟨"대곡댐", 285 / 10, "낙동강 수계"⟩),
   ("4007110", ⟨"주암댐", 707, "섬진강 수계"⟩),
   ("4001110", ⟨"섬진강댐", 466, "섬진강 수계"⟩),
   ("5101110", ⟨"장흥댐", 191, "영산강 수계"⟩),
   ("5001410", ⟨"광주댐", 119, "영산강 수계"⟩),
   ("5002410", ⟨"장성댐", 86, "영산강 수계"⟩),
   ("5003410", ⟨"나주댐", 127, "영산강 수계"⟩),
   ("5001420", ⟨"담양댐", 135, "영산강 수계"⟩),
   ("1302210", ⟨"달방댐", 55 / 10, "기타 수계"⟩),
   ("2403201", ⟨"감포댐", 23 / 10, "기타 수계"⟩),
   ("2503210", ⟨"연초댐", 5, "기타 수계"⟩),
   ("2503220", ⟨"구천댐", 12 / 10, "기타 수계"⟩),
   ("2301211", ⟨"회야댐", 85 / 10, "기타 수계"⟩)]

/-- JavaScript object key lookup on the capacity table. -/
def getDamCapacityInfo (damCode : String) : Option DamCapacityInfo :=
  (DAM_CAPACITY_DATA.find? (fun p => p.1 = damCode)).map (fun p => p.2)

/-- Model of `calculateStorageRate` (the `Number.isFinite` guard always
holds for a rational). -/
def calculateStorageRate (currentStorage : ℚ) (damCode : String) : Option ℤ :=
  match getDamCapacityInfo damCode with
  | none => none
  | some damInfo =>
    if currentStorage ≤ 0 then none
    else some (jsRound (currentStorage / damInfo.totalCapacity * 100))

/-- Model of `getWatershedDams`; `koLe` is the host `localeCompare` order
used by the final sort. -/
def getWatershedDams (koLe : String → String → Bool) (damCode : String) :
    List (String × String) :=
  match getDamCapacityInfo damCode with
  | none => []
  | some damInfo =>
    let entries := DAM_CAPACITY_DATA.filter
      (fun p => p.1 ≠ damCode ∧ p.2.watershed = damInfo.watershed)
    (entries.map (fun p => (p.1, p.2.name))).mergeSort
      (fun a b => koLe a.2 b.2)

/-! ## `src/apis/FloodControlAPI.ts` — records and pure helpers

Methods of the `FloodControlAPI` class become functions in this namespace.
Effectful snapshot fetches are passed in as `Except`-valued parameters
(`searchAndGetData` below); host primitives are a `Host` argument. -/

/-- Water-level snapshot record (after fetch normalisation). -/
structure WaterLevelRecord where
  wlobscd : String
  wl : String
  ymdhm : Option String := none
  deriving DecidableEq, Repr

/-- Dam realtime snapshot record. -/
structure DamRealtimeRecord where
  dmobscd : String
  swl : String
  inf : Option String := none
  tototf : Option String := none
  sfw : Option String := none
  ecpc : Option String := none
  ymdhm : Option String := none
  deriving DecidableEq, Repr

/-- Dam static info record. -/
structure DamInfoRecord where
  dmobscd : String
  pfh : Option String := none
  fldlmtwl : Option String := none
  deriving DecidableEq, Repr

/-- Rainfall snapshot record: the source type has an index signature and
`parseRainfallValue` probes many alias keys, so it is modelled as an
association list (a present key with value `none` models `undefined`). -/
def RainfallRecord := List (String × Option String)

instance : DecidableEq RainfallRecord := by
  unfold RainfallRecord
  infer_instance

/-- Field access `record[key]` on a rainfall record, flattening
absent and `undefined`/`null` to `none`. -/
def rrGet (record : RainfallRecord) (key : String) : Option String :=
  match record.find? (fun p => p.1 = key) with
  | some p => p.2
  | none => none

/-- Directory search hit used by `searchAndGetData` (shape of
`StationManager`'s `StationInfo`). -/
structure StationInfo where
  code : String
  name : String
  type : StationType
  location : Option String := none
  river_name : Option String := none
  deriving DecidableEq, Repr

namespace FloodControlAPI

/-- Model of `normalizeCode`. -/
def normalizeCode (value : Option String) : String := jsTrim (value.getD "")

/-- Whitespace stripping `replace(/\s+/g, '')`. -/
def stripWS (s : String) : String :=
  String.mk (s.data.filter (fun c => ¬ c.isWhitespace))

/-- The regex test `/^\d+$/` (at least one digit, nothing else). -/
def isAllDigits (s : String) : Bool :=
  ¬ s.data.isEmpty ∧ s.data.all (fun c => c.isDigit)

/-- The regex test `/^\d{12}$/`. -/
def is12Digits (s : String) : Bool :=
  s.data.length = 12 ∧ s.data.all (fun c => c.isDigit)

/-- Model of `findStationCode`: exact object-key lookup first, then a scan
of the table entries (in insertion order) for bidirectional substring
containment between entry name and query. -/
def findStationCode (query : String) (type : StationType) : Option String :=
  let mapping := STATION_CODE_MAPPING type
  match mapping.find? (fun p => p.1 = query) with
  | some p => some p.2
  | none =>
    match mapping.find? (fun p => strIncludes p.1 query || strIncludes query p.1) with
    | some p => some p.2
    | none => none

/-- JavaScript `Set.prototype.add`: append if not already present. -/
def jsSetAdd (acc : List String) (c : String) : List String :=
  if acc.contains c then acc else acc ++ [c]

/-- Model of `collectCandidateCodes`: a `Set` (insertion-ordered,
deduplicating) filled with the normalised explicit codes, the alias-table
hit for the raw name, the alias-table hit for the whitespace-stripped name
(only when stripping changed the name), and the trimmed query itself when
it is purely numeric. -/
def collectCandidateCodes (stationName : String) (type : StationType)
    (additional : List (Option String)) : List String :=
  let step1 := additional.foldl
    (fun acc code =>
      let normalized := normalizeCode code
      if normalized = "" then acc else jsSetAdd acc normalized) []
  let step2 :=
    match findStationCode stationName type with
    | some mapping => jsSetAdd step1 mapping
    | none => step1
  let sanitized := stripWS stationName
  let step3 :=
    if sanitized ≠ stationName then
      match findStationCode sanitized type with
      | some mapped => jsSetAdd step2 mapped
      | none => step2
    else step2
  if isAllDigits (jsTrim stationName) then jsSetAdd step3 (jsTrim stationName) else step3

/-- Model of `determineStatus`. -/
def determineStatus (waterLevel : ℚ) : String :=
  if waterLevel < 100 then "낮음"
  else if 112 < waterLevel then "높음"
  else "정상"

/-- Model of `determineTrend`: ignores the water level and branches on a
`Math.random()` draw. -/
def determineTrend (_waterLevel : ℚ) (random : ℚ) : String :=
  if random < 3 / 10 then "상승"
  else if random < 6 / 10 then "하강"
  else "안정"

/-- Model of `getRainfallStatus` (its argument is always a finite number at
the call sites, so the `Number.isFinite` disjunct cannot fire). -/
def getRainfallStatus (rainfall : ℚ) : String :=
  if rainfall ≤ 0 then "강수없음"
  else if rainfall < 1 then "약한비"
  else if rainfall < 3 then "보통비"
  else if rainfall < 5 then "강한비"
  else "매우강한비"

/-- Model of `analyzeWaterLevel`: the fixed flood-limit threshold rule. -/
def analyzeWaterLevel (currentLevel floodLimitLevel : ℚ) : WaterLevelAnalysis :=
  if floodLimitLevel ≤ 0 then
    { status := "정보부족",
      message := "제한수위 정보가 없어 분석할 수 없습니다.",
      level_difference := none,
      percentage_difference := some 0,
      risk_level := "unknown",
      flood_limit_level := some floodLimitLevel }
  else
    let difference := currentLevel - floodLimitLevel
    let percentage := difference / floodLimitLevel * 100
    if 0 < difference then
      { status := "제한수위 초과",
        message := "현재 수위가 제한수위보다 " ++ jsToFixed1 difference ++
          "m 높습니다 (" ++ jsToFixed1 percentage ++ "% 초과)",
        level_difference := some difference,
        percentage_difference := some percentage,
        risk_level := "high",
        flood_limit_level := some floodLimitLevel }
    else if -1 < difference then
      { status := "제한수위 근접",
        message := "현재 수위가 제한수위보다 " ++ jsToFixed1 |difference| ++
          "m 낮습니다 (" ++ jsToFixed1 |percentage| ++ "% 낮음)",
        level_difference := some difference,
        percentage_difference := some percentage,
        risk_level := "medium",
        flood_limit_level := some floodLimitLevel }
    else
      { status := "안전",
        message := "현재 수위가 제한수위보다 " ++ jsToFixed1 |difference| ++
          "m 낮습니다 (" ++ jsToFixed1 |percentage| ++ "% 낮음)",
        level_difference := some difference,
        percentage_difference := some percentage,
        risk_level := "low",
        flood_limit_level := some floodLimitLevel }

/-- Behaviour of `analyzeWaterLevel` when the flood-limit argument is NaN
(a truthy non-numeric `fldlmtwl` string): every comparison is false, so the
final branch runs and every arithmetic result is NaN, rendered `NaN` by
`toFixed`. -/
def analyzeWaterLevelNaN : WaterLevelAnalysis :=
  { status := "안전",
    message := "현재 수위가 제한수위보다 NaNm 낮습니다 (NaN% 낮음)",
    level_difference := none,
    percentage_difference := none,
    risk_level := "low",
    flood_limit_level := none }

/-- Model of `formatToKoreanTime`: empty input short-circuits, otherwise the
host parses and renders the trimmed timestamp (both source branches end in
host `Date`/locale calls, collapsed into `Host.koTime`). -/
def formatToKoreanTime (host : Host) (timestamp : Option String) : String :=
  match timestamp with
  | none => "정보 없음"
  | some t =>
    let trimmed := jsTrim t
    if trimmed = "" then "정보 없음" else host.koTime trimmed

/-- Model of `parseObsTime`. -/
def parseObsTime (host : Host) (obsTime : String) : String :=
  let formatted := formatToKoreanTime host (some obsTime)
  if formatted = "" ∨ formatted = "정보 없음" then host.nowLocaleKo else formatted

/-- Model of `obsTimeToISOString` (both date-construction branches collapse
into `Host.toISO`). -/
def obsTimeToISOString (host : Host) (timestamp : Option String) : Option String :=
  match timestamp with
  | none => none
  | some t =>
    let trimmed := jsTrim t
    if trimmed = "" then none else host.toISO trimmed

/-- Model of `createErrorResponse`. -/
def createErrorResponse (host : Host) (message : String) : IntegratedResponse :=
  { status := "error",
    summary := message,
    direct_answer := message,
    detailed_data := { primary_station := { name := "", code := "" } },
    timestamp := host.nowISO }

/-- Model of `parseRainfallValue`: probe the keys in order, skip absent,
`undefined`, blank and unparseable values, fall back to `fallback`
(`none` = the NaN default). -/
def parseRainfallValue (record : RainfallRecord) (keys : List String)
    (fallback : Option ℚ) : Option ℚ :=
  match keys with
  | [] => fallback
  | key :: rest =>
    match record.find? (fun p => p.1 = key) with
    | none => parseRainfallValue record rest fallback
    | some p =>
      match p.2 with
      | none => parseRainfallValue record rest fallback
      | some raw =>
        let trimmed := jsTrim raw
        if trimmed = "" then parseRainfallValue record rest fallback
        else
          match jsParseFloat trimmed with
          | some v => some v
          | none => parseRainfallValue record rest fallback

/-- Model of `resolveWaterLevelRecord`: scan the candidate codes in order;
for each, look up the first snapshot record with the same trimmed code and
accept it only if its `wl` field parses to a (finite) number and is not a
blank placeholder; otherwise move to the next candidate. -/
def resolveWaterLevelRecord (nowISO : String) (snapshot : List WaterLevelRecord)
    (codes : List String) : Option (String × WaterLevelData) :=
  match codes with
  | [] => none
  | code :: rest =>
    let normalized := normalizeCode (some code)
    match snapshot.find? (fun item => normalizeCode (some item.wlobscd) = normalized) with
    | none => resolveWaterLevelRecord nowISO snapshot rest
    | some record =>
      match jsParseFloat record.wl with
      | none => resolveWaterLevelRecord nowISO snapshot rest
      | some waterLevel =>
        if record.wl = "" ∨ record.wl = " " then
          resolveWaterLevelRecord nowISO snapshot rest
        else
          some (normalized,
            { obs_code := normalized,
              obs_time := orElseStr record.ymdhm nowISO,
              water_level := waterLevel,
              unit := "m" })

/-- Model of `resolveRainfallRecord`. -/
def resolveRainfallRecord (host : Host) (snapshot : List RainfallRecord)
    (codes : List String) : Option (String × RainfallData) :=
  match codes with
  | [] => none
  | code :: rest =>
    let normalized := normalizeCode (some code)
    match snapshot.find? (fun item => normalizeCode (rrGet item "rfobscd") = normalized) with
    | none => resolveRainfallRecord host snapshot rest
    | some record =>
      match parseRainfallValue record ["rf", "rainfall", "rf_now"] none with
      | none => resolveRainfallRecord host snapshot rest
      | some currentRainfall =>
        let hourlyRainfall := (parseRainfallValue record
          ["rfSum1h", "rfsum1h", "rf1h", "rf_1h", "rf_hour", "rf_sum_1h", "rnhr1", "rf1Hour"]
          (some 0)).getD 0
        let dailyRainfall := (parseRainfallValue record
          ["rfSum1d", "rfsum1d", "rf1d", "rf_1d", "rf_day", "rf_sum_24h", "rn24h", "rfDaily"]
          (some 0)).getD 0
        let stationName := (firstTruthy
          [rrGet record "obsnm", rrGet record "rfobsnm",
           rrGet record "obsname", rrGet record "obs_nm"]).getD
          ("우량관측소_" ++ normalized)
        let timestamp :=
          match rrGet record "ymdhm" with
          | some y => if is12Digits y then parseObsTime host y else host.nowLocaleKo
          | none => host.nowLocaleKo
        let status := getRainfallStatus currentRainfall
        some (normalized,
          { stationName, stationCode := normalized,
            currentRainfall, hourlyRainfall, dailyRainfall, timestamp, status })

/-- JavaScript `x ? parseFloat(x) : 0` on an optional string field
(`none` result = NaN from a truthy non-numeric string). -/
def parseFieldOrZero (field : Option String) : Option ℚ :=
  match field with
  | none => some 0
  | some s => if s = "" then some 0 else jsParseFloat s

/-- Model of `resolveDamRecord`: like the water-level resolver but joining
the static info record by the same code and deriving the flood-limit
analysis. -/
def resolveDamRecord (host : Host)
    (snapshots : List DamRealtimeRecord × List DamInfoRecord)
    (codes : List String) : Option (String × DamData) :=
  match codes with
  | [] => none
  | code :: rest =>
    let normalized := normalizeCode (some code)
    match snapshots.1.find? (fun item => normalizeCode (some item.dmobscd) = normalized) with
    | none => resolveDamRecord host snapshots rest
    | some damData =>
      let damInfo := snapshots.2.find?
        (fun item => normalizeCode (some item.dmobscd) = normalized)
      match jsParseFloat damData.swl with
      | none => resolveDamRecord host snapshots rest
      | some waterLevel =>
        let inflow := parseFieldOrZero damData.inf
        let outflow := parseFieldOrZero damData.tototf
        let currentStorage := parseFieldOrZero damData.sfw
        let floodControlCapacity := parseFieldOrZero (damInfo.bind (fun i => i.pfh))
        let floodLimitLevel := parseFieldOrZero (damInfo.bind (fun i => i.fldlmtwl))
        let waterLevelAnalysis :=
          match floodLimitLevel with
          | some f => analyzeWaterLevel waterLevel f
          | none => analyzeWaterLevelNaN
        some (normalized,
          { obs_code := normalized,
            obs_time := orElseStr damData.ymdhm host.nowISO,
            water_level := waterLevel,
            inflow, outflow, current_storage := currentStorage,
            flood_control_capacity := floodControlCapacity,
            flood_limit_level := floodLimitLevel,
            water_level_analysis := waterLevelAnalysis,
            unit := "m" })

/-- Model of `getRelatedStations`: watershed siblings when the code is a
known dam, else the fixed 한강대교 hint for bridge queries. -/
def getRelatedStations (koLe : String → String → Bool) (stationName : String)
    (stationCode : Option String) : List RelatedStation :=
  let inTable :=
    match stationCode with
    | some c => if c = "" then false else (getDamCapacityInfo c).isSome
    | none => false
  if inTable then
    (getWatershedDams koLe (stationCode.getD "")).map
      (fun dam => { name := dam.2, code := dam.1 })
  else if strIncludes stationName "대교" then
    [{ name := "한강대교", code := "1018683" }]
  else []

/-- Model of `createIntegratedResponse` (water-level success response). -/
def createIntegratedResponse (host : Host) (stationName stationCode : String)
    (data : WaterLevelData) : IntegratedResponse :=
  let currentLevel := jsToFixed1 data.water_level ++ "m"
  let status := determineStatus data.water_level
  let trend := determineTrend data.water_level host.random
  let lastUpdated := parseObsTime host data.obs_time
  { status := "success",
    summary := stationName ++ " 현재 수위는 " ++ currentLevel ++ "입니다",
    direct_answer := stationName ++ "의 현재 수위는 " ++ currentLevel ++
      "이며, " ++ status ++ " 상태입니다.",
    detailed_data :=
      { type := some "waterlevel",
        primary_station :=
          { name := stationName, code := stationCode,
            current_level := some currentLevel,
            status := some status,
            trend := some trend,
            last_updated := some lastUpdated },
        related_stations := some (getRelatedStations host.koLe stationName none) },
    timestamp := host.nowISO }

/-- Model of `getRainfallEmoji`. -/
def getRainfallEmoji (status : String) : String :=
  match ([("강수없음", "☀️"), ("약한비", "🌦️"), ("보통비", "🌧️"),
          ("강한비", "⛈️"), ("매우강한비", "🌩️")].find?
          (fun p => p.1 = status)) with
  | some p => p.2
  | none => "🌧️"

/-- Model of `formatRainfallMessage`. -/
def formatRainfallMessage (data : RainfallData) : String :=
  let emoji := getRainfallEmoji data.status
  "🌧️ **" ++ data.stationName ++ " 실시간 강수량 정보**\n\n" ++
  "📊 **현재 상태**: " ++ emoji ++ " " ++ data.status ++ "\n\n" ++
  "📈 **강수량 현황**:\n" ++
  "-  현재: " ++ jsToFixed1 data.currentRainfall ++ "mm\n" ++
  "-  1시간 누적: " ++ jsToFixed1 data.hourlyRainfall ++ "mm\n" ++
  "-  일 누적: " ++ jsToFixed1 data.dailyRainfall ++ "mm\n\n" ++
  "🕐 **측정시각**: " ++ data.timestamp ++ "\n\n" ++
  "🔗 **관측소 코드**: " ++ data.stationCode

/-- Model of `createIntegratedRainfallResponse`. -/
def createIntegratedRainfallResponse (host : Host) (fallbackName stationCode : String)
    (rainfall : RainfallData) : IntegratedResponse :=
  let stationName := if rainfall.stationName = "" then fallbackName else rainfall.stationName
  let currentRainfall := rainfall.currentRainfall
  let summary := stationName ++ " 현재 강수량은 " ++ jsToFixed1 currentRainfall ++ "mm입니다"
  let patched := { rainfall with stationName := stationName, stationCode := stationCode }
  let detailedMessage := formatRainfallMessage patched
  { status := "success",
    summary := summary,
    direct_answer := detailedMessage,
    detailed_data :=
      { type := some "rainfall",
        primary_station :=
          { name := stationName, code := stationCode,
            current_level := some (jsToFixed1 currentRainfall ++ "mm"),
            current_rainfall := some (jsToFixed1 currentRainfall ++ "mm"),
            status := some rainfall.status,
            last_updated := some rainfall.timestamp },
        related_stations := some (getRelatedStations host.koLe stationName none),
        rainfall_details := some patched },
    timestamp := host.nowISO }

/-- Model of `isQuickQuery`. -/
def isQuickQuery (rawQuery : String) : Bool :=
  if rawQuery = "" then false
  else
    let normalized := jsTrim rawQuery
    if normalized = "" then false
    else
      let lower := jsToLower normalized
      if ["분석", "trend", "자세히", "상세", "forecast", "패턴"].any
          (fun keyword => strIncludes lower keyword) then false
      else
        ["방류량", "수위", "현황", "몇", "얼마", "댐"].any
          (fun keyword => strIncludes normalized keyword)

/-- Model of `getStorageStatus` (`none` = null storage rate). -/
def getStorageStatus (storageRate : Option ℤ) : String :=
  match storageRate with
  | none => "정보 없음"
  | some rate =>
    if 80 ≤ rate then "🟢 풍부 (80% 이상)"
    else if 60 ≤ rate then "🟡 보통 (60-79%)"
    else if 40 ≤ rate then "🟠 주의 (40-59%)"
    else if 20 ≤ rate then "🔴 부족 (20-39%)"
    else "🚨 심각 (20% 미만)"

/-- Model of `formatCapacity`: finite numbers are always formatted, via the
host locale renderer (integral or one-fraction-digit variant). -/
def formatCapacity (host : Host) (value : ℚ) : Option String :=
  if value.den = 1 then some (host.localeInt value) else some (host.localeFrac value)

/-- Model of `formatMaybeNumber` (`none` = null/undefined/NaN). -/
def formatMaybeNumber (value : Option ℚ) (unit : String)
    (fractionDigits : ℕ := 1) : String :=
  match value with
  | none => "정보 없음"
  | some v => jsToFixed fractionDigits v ++ unit

/-- Model of `getTrendEmoji`. -/
def getTrendEmoji (direction : String) : String :=
  if direction = "상승" then "🔼"
  else if direction = "하강" then "🔽"
  else "➡️"

/-- Model of `safeParseNumber` with the default `null` fallback. -/
def safeParseNumber (value : JSVal) : Option ℚ :=
  match value with
  | JSVal.null => none
  | JSVal.num q => some q
  | JSVal.str s => if s = "" then none else jsParseFloat s

/-- Model of `calculateAverage`. -/
def calculateAverage (data : List TSEntry) (field : String) : Option ℚ :=
  if data.isEmpty then none
  else
    let values := data.filterMap (fun entry => safeParseNumber (tsGet entry field))
    if values.isEmpty then none
    else some (values.sum / values.length)

/-- Model of `findMax` (`Math.max` over the parsed values). -/
def findMax (data : List TSEntry) (field : String) : Option ℚ :=
  if data.isEmpty then none
  else
    let values := data.filterMap (fun entry => safeParseNumber (tsGet entry field))
    match values with
    | [] => none
    | v :: rest => some (rest.foldl max v)

/-- Model of `buildStorageBar`. -/
def buildStorageBar (storageRate : Option ℤ) : String :=
  match storageRate with
  | none => "정보 없음"
  | some rate =>
    let segments := (max 0 (min 10 (jsRound ((rate : ℚ) / 10)))).toNat
    String.mk (List.replicate segments '🟦') ++
      String.mk (List.replicate (10 - segments) '⬜')

/-- Model of `interpretOperationStatus`. -/
def interpretOperationStatus (realtimeTrend dischargeTrend inflowTrend : TrendAnalysis)
    (storageRate : Option ℤ) : String :=
  if (match storageRate with | some r => decide (80 ≤ r) | none => false) then
    "💧 풍부 - 저수량이 충분하여 안정적인 운영이 가능합니다."
  else if (match storageRate with | some r => decide (r < 30) | none => false) then
    "⚠️ 부족 - 저수율이 낮아 보수적인 방류 운영이 필요합니다."
  else if dischargeTrend.direction = "상승" ∧ inflowTrend.direction ≠ "상승" then
    "🔼 방류량 증가 - 하류 수위 조절 또는 예비방류 중입니다."
  else if realtimeTrend.direction = "하강" ∧ dischargeTrend.direction = "상승" then
    "✅ 수위 하강 - 방류를 통해 저수위 조절이 진행 중입니다."
  else if realtimeTrend.direction = "상승" ∧ inflowTrend.direction = "상승" then
    "🌧️ 유입량 증가 - 상류 강우 영향으로 수위 상승이 감지됩니다."
  else "➡️ 안정 - 급격한 변화 없이 정상 운영 중입니다."

/-- Model of `generateForecast`. -/
def generateForecast (shortTerm mediumTerm longTerm : String) : String :=
  if shortTerm = "상승" ∧ mediumTerm = "상승" then
    "단기·중기 모두 상승세로 추가적인 수위 상승 가능성이 큽니다."
  else if shortTerm = "하강" ∧ mediumTerm ≠ "상승" then
    "단기적으로 하강세가 이어져 점진적인 수위 감소가 예상됩니다."
  else if longTerm = "상승" then
    "30일 장기 추세가 상승 중이므로 계절적 상승 패턴에 주의하세요."
  else if longTerm = "하강" ∧ shortTerm ≠ "상승" then
    "장기적으로 하강 추세로 안정적인 저수 관리가 전망됩니다."
  else "큰 추세 변화 없이 현 상태가 유지될 가능성이 큽니다."

/-- Model of `generateRecommendation`. -/
def generateRecommendation (storageRate : Option ℤ)
    (shortTerm mediumTerm longTerm : String) : String :=
  if (match storageRate with | some r => decide (90 ≤ r) | none => false) then
    "방류량 조정 계획과 시설 점검을 사전에 검토하세요."
  else if (match storageRate with | some r => decide (r ≤ 25) | none => false) then
    "생활·농업 용수 확보를 위해 절수 대책 및 비상 공급 계획을 준비하세요."
  else if shortTerm = "상승" then
    "상류 강우 상황을 집중 모니터링하며 방류 계획을 유연하게 운영하세요."
  else if mediumTerm = "하강" ∧ longTerm = "하강" then
    "저수량 확보를 위해 필요 시 방류량을 추가로 축소할 여지가 있습니다."
  else "정기적인 시계열 분석으로 추세 변화를 지속적으로 관찰하세요."

/-- Argument record of `buildDamNarrative`/`formatDamSnapshot`. -/
structure DamNarrativeArgs where
  damName : String
  damCode : String
  waterLevel : Option ℚ
  inflowRate : Option ℚ
  outflowRate : Option ℚ
  currentStorage : Option ℚ
  storageRate : Option ℤ
  observationTime : Option String
  relatedDamNames : Option (List String)
  watershedLabel : String

/-- The `storageRate !== null ? storageRate : currentStorage !== null ?
calculateStorageRate(...) : null` normalisation shared by the narrative
builders. -/
def normalizedStorageRate (a : DamNarrativeArgs) : Option ℤ :=
  match a.storageRate with
  | some r => some r
  | none =>
    match a.currentStorage with
    | some cs => calculateStorageRate cs a.damCode
    | none => none

/-- Model of `formatDamSnapshot` (the narrative fallback). -/
def formatDamSnapshot (host : Host) (a : DamNarrativeArgs) : String :=
  let storageRate := normalizedStorageRate a
  let damCapacity := getDamCapacityInfo a.damCode
  let relatedDams :=
    match a.relatedDamNames with
    | some names =>
      if names.length > 0 then names
      else (getWatershedDams host.koLe a.damCode).map (fun dam => dam.2)
    | none => (getWatershedDams host.koLe a.damCode).map (fun dam => dam.2)
  let koreanTime := formatToKoreanTime host a.observationTime
  let metrics :=
    (match a.waterLevel with
     | some wl => ["- 현재 수위: " ++ jsToFixed1 wl ++ "m"]
     | none => []) ++
    (match a.outflowRate with
     | some v => ["- 방류량: " ++ jsToFixed1 v ++ " m³/s"]
     | none => []) ++
    (match a.inflowRate with
     | some v => ["- 유입량: " ++ jsToFixed1 v ++ " m³/s"]
     | none => []) ++
    (match a.currentStorage with
     | some v => ["- 현재 저수량: " ++ jsToFixed1 v ++ " 백만㎥"]
     | none => []) ++
    (match storageRate with
     | some r => ["- 저수율: " ++ toString r ++ "%"]
     | none => []) ++
    (match damCapacity with
     | some c =>
       match formatCapacity host c.totalCapacity with
       | some text => ["- 총저수용량: " ++ text ++ " 백만㎥"]
       | none => []
     | none => [])
  let storageStatus := getStorageStatus storageRate
  let relatedText :=
    if relatedDams.length > 0 then String.intercalate ", " relatedDams else "정보 없음"
  String.intercalate "\n"
    ["🌊 **" ++ a.damName ++ " 종합 현황**",
     "",
     "📊 **주요 지표**",
     (if metrics.length > 0 then String.intercalate "\n" metrics else "- 데이터 없음"),
     "",
     "📈 **저수 상태**: " ++ storageStatus,
     "",
     "🏞️ **" ++ a.watershedLabel ++ " 주요 댐**: " ++ relatedText,
     "",
     "🕐 **측정시각**: " ++ koreanTime,
     "💡 **데이터 제공**: 홍수통제소"]

/-- Model of `parseTimestampNumber`: 12-digit stamps compare as their
numeric value, other strings via the host date parser, invalid as -∞
(`none`). -/
def parseTimestampNumber (host : Host) (entry : TSEntry) : Option ℤ :=
  let candidate :=
    match tsGet entry "ymdhm" with
    | JSVal.str s => s
    | _ =>
      match tsGet entry "obs_time" with
      | JSVal.str s => s
      | _ =>
        match tsGet entry "obsYmdhm" with
        | JSVal.str s => s
        | _ =>
          match tsGet entry "timestamp" with
          | JSVal.str s => s
          | _ => ""
  if is12Digits candidate then some (digitsVal candidate.data : ℤ)
  else host.dateMillis candidate

/-- Comparison with -∞ below everything (the comparator `b - a` of the
descending sort; a NaN comparator value behaves like 0). -/
def tsKeyLe (x y : Option ℤ) : Bool :=
  match x, y with
  | none, _ => true
  | some _, none => false
  | some a, some b => a ≤ b

/-- Model of `normalizeDamTimeSeries`: drop nothing (entries are non-null
in this model) and stable-sort by timestamp, most recent first. -/
def normalizeDamTimeSeries (host : Host) (data : List TSEntry) : List TSEntry :=
  data.mergeSort (fun a b =>
    tsKeyLe (parseTimestampNumber host b) (parseTimestampNumber host a))

/-- Result record of `getComprehensiveAnalysis`. -/
structure ComprehensiveAnalysis where
  realtime : List TSEntry
  hourly : List TSEntry
  daily : List TSEntry
  shortTerm : String
  mediumTerm : String
  longTerm : String

/-- Model of `getComprehensiveAnalysis`; `fetchSeries damCode interval` is
the outcome of the effectful `getDamTimeSeriesFiltered` call. -/
def getComprehensiveAnalysis
    (fetchSeries : String → String → Except String (List TSEntry))
    (host : Host) (damCode : String) : Except String ComprehensiveAnalysis := do
  let realtimeRaw ← fetchSeries damCode "10M"
  let hourlyRaw ← fetchSeries damCode "1H"
  let dailyRaw ← fetchSeries damCode "1D"
  let realtime := (normalizeDamTimeSeries host realtimeRaw).take 36
  let hourly := (normalizeDamTimeSeries host hourlyRaw).take 24
  let daily := (normalizeDamTimeSeries host dailyRaw).take 30
  pure
    { realtime, hourly, daily,
      shortTerm := (TimeSeriesAnalyzer.analyzeTrend realtime ["swl"]).direction,
      mediumTerm := (TimeSeriesAnalyzer.analyzeTrend hourly ["swl"]).direction,
      longTerm := (TimeSeriesAnalyzer.analyzeTrend daily ["swl"]).direction }

/-- Model of `buildDamNarrative`: the rich analysis narrative, falling back
to the static snapshot text when the time-series fetches fail. -/
def buildDamNarrative (fetchSeries : String → String → Except String (List TSEntry))
    (host : Host) (a : DamNarrativeArgs) : String :=
  let snapshot := formatDamSnapshot host a
  match getComprehensiveAnalysis fetchSeries host a.damCode with
  | Except.error _ => snapshot
  | Except.ok analysis =>
    let storageRateValue := normalizedStorageRate a
    let storageBar := buildStorageBar storageRateValue
    let formattedTime := formatToKoreanTime host a.observationTime
    let watershedRelated :=
      match a.relatedDamNames with
      | some names => if names.length > 0 then String.intercalate ", " names else "정보 없음"
      | none => "정보 없음"
    let realtimeTrend := TimeSeriesAnalyzer.analyzeTrend analysis.realtime ["swl"]
    let dischargeTrend := TimeSeriesAnalyzer.analyzeTrend analysis.realtime ["otf"]
    let inflowTrend := TimeSeriesAnalyzer.analyzeTrend analysis.realtime ["inf"]
    let realtimeAverageOutflow := calculateAverage analysis.realtime "otf"
    let hourlyMaxOutflow := findMax analysis.hourly "otf"
    let dailyAverageStorage := calculateAverage analysis.daily "fwVol"
    let recommendation := generateRecommendation storageRateValue
      analysis.shortTerm analysis.mediumTerm analysis.longTerm
    let _ := formattedTime
    String.intercalate "\n"
      ["🌊 **" ++ a.damName ++ " 종합 분석**",
       "",
       "📊 **현재 상황 (실시간)**",
       (match storageRateValue with
        | some r => "저수율: " ++ storageBar ++ " " ++ toString r ++ "%"
        | none => "저수율: 정보 없음"),
       "수위: " ++ formatMaybeNumber a.waterLevel "m",
       "방류량: " ++ formatMaybeNumber a.outflowRate " m³/s",
       "유입량: " ++ formatMaybeNumber a.inflowRate " m³/s",
       "",
       "📈 **시계열 분석**",
       "단기 추세 (6시간): " ++ analysis.shortTerm ++ " " ++ getTrendEmoji analysis.shortTerm,
       "중기 추세 (24시간): " ++ analysis.mediumTerm ++ " " ++ getTrendEmoji analysis.mediumTerm,
       "장기 추세 (30일): " ++ analysis.longTerm ++ " " ++ getTrendEmoji analysis.longTerm,
       "",
       "📋 **운영 패턴**",
       "6시간 평균 방류량: " ++ formatMaybeNumber realtimeAverageOutflow " m³/s" 2,
       "24시간 최대 방류량: " ++ formatMaybeNumber hourlyMaxOutflow " m³/s",
       (match dailyAverageStorage with
        | some v => "30일 평균 저수량: " ++ formatMaybeNumber (some v) " 백만㎥" 1
        | none => "30일 평균 저수량: 데이터 없음"),
       "",
       "💡 **전문가 해석**",
       "운영 상태: " ++ interpretOperationStatus realtimeTrend dischargeTrend inflowTrend storageRateValue,
       "향후 전망: " ++ generateForecast analysis.shortTerm analysis.mediumTerm analysis.longTerm,
       "권고사항: " ++ recommendation,
       "",
       "🏞️ **" ++ a.watershedLabel ++ " 주요 댐**: " ++ watershedRelated,
       "",
       "🕐 **분석 기준**: 실시간·1시간·1일 단위 통합 분석",
       "💡 **데이터 제공**: 홍수통제소"]

/-- Model of `formatQuickResponse`. -/
def formatQuickResponse (host : Host) (a : DamNarrativeArgs) : String :=
  let outflowText := formatMaybeNumber a.outflowRate " m³/s"
  let inflowText := formatMaybeNumber a.inflowRate " m³/s"
  let waterLevelText := formatMaybeNumber a.waterLevel "m"
  let storageRateText :=
    match a.storageRate with
    | some r => toString r ++ "%"
    | none => "정보 없음"
  let storageVolumeText := formatMaybeNumber a.currentStorage " 백만㎥"
  let statusText := getStorageStatus a.storageRate
  let timeText := formatToKoreanTime host a.observationTime
  String.intercalate "\n"
    ["🌊 " ++ a.damName ++ " 현재 현황",
     "",
     "📊 실시간 데이터",
     "",
     "방류량: " ++ outflowText,
     "유입량: " ++ inflowText,
     "저수율: " ++ storageRateText,
     "수위: " ++ waterLevelText,
     "저수량: " ++ storageVolumeText,
     "상태: " ++ statusText,
     "",
     "🕐 측정시각: " ++ timeText,
     "💡 상세 분석이 필요하면 \"자세히\" 또는 \"분석\"이라고 요청하세요."]

/-- Rendering of `${number}` for a possibly-NaN value. -/
def optNumStr (host : Host) (value : Option ℚ) : String :=
  match value with
  | some q => host.numStr q
  | none => "NaN"

/-- Model of `createIntegratedDamResponse`.  `fetchSeries` carries the
time-series fetches used (only) by the non-quick narrative. -/
def createIntegratedDamResponse
    (fetchSeries : String → String → Except String (List TSEntry)) (host : Host)
    (damName damCode waterLevelCode : String)
    (damData : Option DamData) (waterLevelData : Option WaterLevelData)
    (quickMode : Bool) : IntegratedResponse :=
  let waterLevelValue : Option ℚ :=
    match damData with
    | some d => some d.water_level
    | none => waterLevelData.map (fun w => w.water_level)
  let inflowValue := damData.bind (fun d => d.inflow)
  let outflowValue := damData.bind (fun d => d.outflow)
  let currentStorageValue := damData.bind (fun d => d.current_storage)
  let observationTime :=
    match damData with
    | some d => d.obs_time
    | none =>
      match waterLevelData with
      | some w => w.obs_time
      | none => ""
  let currentLevel :=
    match waterLevelValue with
    | some v => jsToFixed1 v ++ "m"
    | none => "정보 없음"
  let status :=
    match waterLevelValue with
    | some v => determineStatus v
    | none => "정보 없음"
  let trend :=
    match waterLevelValue with
    | some v => determineTrend v host.random
    | none => "정보 없음"
  let lastUpdated := parseObsTime host observationTime
  let storageRateValue :=
    match currentStorageValue with
    | some cs => calculateStorageRate cs damCode
    | none => none
  let damCapacity := getDamCapacityInfo damCode
  let relatedDamEntries := getWatershedDams host.koLe damCode
  let relatedStations : List RelatedStation :=
    relatedDamEntries.map (fun dam => { name := dam.2, code := dam.1 })
  let relatedDamNames := relatedDamEntries.map (fun dam => dam.2)
  let watershedLabel := (damCapacity.map (fun c => c.watershed)).getD "동일 수계"
  let damInfo : PrimaryStation :=
    { name := damName, code := damCode,
      current_level := some currentLevel,
      status := some status,
      trend := some trend,
      last_updated := some lastUpdated,
      inflow := inflowValue.map (fun v => jsToFixed1 v ++ "m³/s"),
      outflow := outflowValue.map (fun v => jsToFixed1 v ++ "m³/s"),
      current_storage := currentStorageValue.map (fun v => jsToFixed1 v ++ "백만㎥"),
      storage_rate := storageRateValue.map (fun r => toString r ++ "%"),
      total_storage :=
        match damCapacity with
        | some c => (formatCapacity host c.totalCapacity).map (fun t => t ++ "백만㎥")
        | none => none,
      flood_limit_level :=
        damData.map (fun d => optNumStr host d.flood_limit_level ++ "m"),
      water_level_analysis := damData.map (fun d => d.water_level_analysis) }
  let waterLevelInfo : Option WaterLevelStation :=
    waterLevelData.map (fun w =>
      { name := damName ++ " 수위관측소",
        code := waterLevelCode,
        current_level := some (jsToFixed1 w.water_level ++ "m"),
        last_updated := some (parseObsTime host w.obs_time) })
  let summaryParts :=
    (match outflowValue with
     | some v => ["방류량 " ++ jsToFixed1 v ++ "m³/s"]
     | none => []) ++
    (match storageRateValue with
     | some r => ["저수율 " ++ toString r ++ "%"]
     | none => [])
  let summary :=
    if summaryParts.length > 0 then
      damName ++ " " ++ String.intercalate ", " summaryParts
    else damName ++ " 현재 수위는 " ++ currentLevel ++ "입니다"
  let isoTimestamp := (obsTimeToISOString host (some observationTime)).getD host.nowISO
  let narrativeArgs : DamNarrativeArgs :=
    { damName, damCode,
      waterLevel := waterLevelValue,
      inflowRate := inflowValue,
      outflowRate := outflowValue,
      currentStorage := currentStorageValue,
      storageRate := storageRateValue,
      observationTime := some observationTime,
      relatedDamNames := some relatedDamNames,
      watershedLabel }
  let directAnswer :=
    if quickMode then formatQuickResponse host narrativeArgs
    else buildDamNarrative fetchSeries host narrativeArgs
  let fallbackRelated := getRelatedStations host.koLe damName (some damCode)
  let combinedRelated :=
    if relatedStations.length > 0 then relatedStations else fallbackRelated
  { status := "success",
    summary := summary,
    direct_answer := directAnswer,
    detailed_data :=
      { type := some "dam",
        primary_station := damInfo,
        water_level_station := waterLevelInfo,
        related_stations := some combinedRelated },
    timestamp := isoTimestamp }

/-- Model of `prioritizeSearchResults` (JavaScript `Array.prototype.sort`
is stable; a comparator `c` corresponds to sorting with the total preorder
`c(a,b) <= 0`). -/
def prioritizeSearchResults (searchResults : List StationInfo)
    (isRainfallQuery isDamQuery isWaterLevelQuery : Bool) : List StationInfo :=
  if isRainfallQuery then
    searchResults.mergeSort (fun a b =>
      decide (a.type = StationType.rainfall ∨ b.type ≠ StationType.rainfall))
  else if isDamQuery then
    searchResults.mergeSort (fun a b =>
      decide (a.type = StationType.dam ∨ b.type ≠ StationType.dam))
  else if isWaterLevelQuery then
    searchResults.mergeSort (fun a b =>
      decide (a.type = StationType.waterlevel ∨ b.type ≠ StationType.waterlevel))
  else
    let typeOrder : StationType → ℕ
      | StationType.dam => 0
      | StationType.rainfall => 1
      | StationType.waterlevel => 2
    searchResults.mergeSort (fun a b => typeOrder a.type ≤ typeOrder b.type)

/-- Outcomes of the effectful collaborators of `searchAndGetData`: the
directory search and the (memoized) snapshot fetches.  `Except.error`
models a rejected promise. -/
structure FetchEnv where
  search : Except String (List StationInfo)
  water : Except String (List WaterLevelRecord)
  rain : Except String (List RainfallRecord)
  dam : Except String (List DamRealtimeRecord × List DamInfoRecord)
  damSeries : String → String → Except String (List TSEntry)

/-- Tail of the keyword fallback flow: the water-level-keyword attempt,
the default water-then-rainfall cascade, and the final
no-station-found error response. -/
def noSearchTail (env : FetchEnv) (host : Host) (query : String)
    (isWaterLevelQuery : Bool) : Except String IntegratedResponse :=
  match (if isWaterLevelQuery then
      env.water.map (fun snap =>
        resolveWaterLevelRecord host.nowISO snap
          (collectCandidateCodes query StationType.waterlevel [some query]))
    else Except.ok none) with
  | Except.error e => Except.error e
  | Except.ok (some waterResult) =>
    Except.ok (createIntegratedResponse host query waterResult.1 waterResult.2)
  | Except.ok none =>
    match env.water with
    | Except.error e => Except.error e
    | Except.ok snap =>
      match resolveWaterLevelRecord host.nowISO snap
          (collectCandidateCodes query StationType.waterlevel [some query]) with
      | some waterResult =>
        Except.ok (createIntegratedResponse host query waterResult.1 waterResult.2)
      | none =>
        match env.rain with
        | Except.error e => Except.error e
        | Except.ok rainSnap =>
          match resolveRainfallRecord host rainSnap
              (collectCandidateCodes query StationType.rainfall [some query]) with
          | some rainfallResult =>
            Except.ok (createIntegratedRainfallResponse host query
              rainfallResult.1 rainfallResult.2)
          | none =>
            Except.ok (createErrorResponse host
              ("\x27" ++ query ++ "\x27 관측소 정보를 찾을 수 없습니다."))

/-- The keyword-priority fallback flow of `searchAndGetData` taken when the
directory search returns nothing: rainfall-keyword attempt, dam-keyword
attempt (dam and paired water-level snapshots), then `noSearchTail`.
A failed snapshot fetch propagates as `Except.error`, modelling the thrown
exception reaching the top-level catch. -/
def noSearchFlow (env : FetchEnv) (host : Host) (query : String)
    (isRainfallQuery isDamQuery isWaterLevelQuery quickMode : Bool) :
    Except String IntegratedResponse :=
  match (if isRainfallQuery then
      env.rain.map (fun snap =>
        resolveRainfallRecord host snap
          (collectCandidateCodes query StationType.rainfall [some query]))
    else Except.ok none) with
  | Except.error e => Except.error e
  | Except.ok (some rainfallResult) =>
    Except.ok (createIntegratedRainfallResponse host query
      rainfallResult.1 rainfallResult.2)
  | Except.ok none =>
    match (if isDamQuery then
        match env.dam with
        | Except.error e => Except.error e
        | Except.ok snapshots =>
          match env.water with
          | Except.error e => Except.error e
          | Except.ok waterSnap =>
            Except.ok (some
              (resolveDamRecord host snapshots
                (collectCandidateCodes query StationType.dam [some query]),
               resolveWaterLevelRecord host.nowISO waterSnap
                (collectCandidateCodes query StationType.waterlevel [some query])))
      else Except.ok none) with
    | Except.error e => Except.error e
    | Except.ok (some (damResult, waterResult)) =>
      if damResult.isSome ∨ waterResult.isSome then
        Except.ok (createIntegratedDamResponse env.damSeries host query
          (((damResult.map (fun r => r.1)).orElse
            (fun _ => waterResult.map (fun r => r.1))).getD "")
          (((waterResult.map (fun r => r.1)).orElse
            (fun _ => damResult.map (fun r => r.1))).getD "")
          (damResult.map (fun r => r.2)) (waterResult.map (fun r => r.2)) quickMode)
      else noSearchTail env host query isWaterLevelQuery
    | Except.ok none => noSearchTail env host query isWaterLevelQuery

/-- The candidate-station loop of `searchAndGetData`. -/
def stationLoop (env : FetchEnv) (host : Host) (query : String)
    (quickMode : Bool) : List StationInfo → Except String IntegratedResponse
  | [] =>
    Except.ok (createErrorResponse host (query ++ "의 실시간 데이터를 가져올 수 없습니다."))
  | station :: rest =>
    match station.type with
    | StationType.dam =>
      match env.dam with
      | Except.error e => Except.error e
      | Except.ok snapshots =>
        match env.water with
        | Except.error e => Except.error e
        | Except.ok waterSnap =>
          let damResult := resolveDamRecord host snapshots
            (collectCandidateCodes station.name StationType.dam
              [some station.code, some query])
          let waterResult := resolveWaterLevelRecord host.nowISO waterSnap
            (collectCandidateCodes station.name StationType.waterlevel [some query])
          if damResult.isSome ∨ waterResult.isSome then
            Except.ok (createIntegratedDamResponse env.damSeries host station.name
              ((damResult.map (fun r => r.1)).getD station.code)
              (((waterResult.map (fun r => r.1)).orElse
                (fun _ => damResult.map (fun r => r.1))).getD station.code)
              (damResult.map (fun r => r.2)) (waterResult.map (fun r => r.2)) quickMode)
          else stationLoop env host query quickMode rest
    | StationType.rainfall =>
      match env.rain with
      | Except.error e => Except.error e
      | Except.ok rainSnap =>
        match resolveRainfallRecord host rainSnap
            (collectCandidateCodes station.name StationType.rainfall
              [some station.code, some query]) with
        | some rainfallResult =>
          Except.ok (createIntegratedRainfallResponse host station.name
            rainfallResult.1 rainfallResult.2)
        | none =>
          match env.water with
          | Except.error e => Except.error e
          | Except.ok waterSnap =>
            match resolveWaterLevelRecord host.nowISO waterSnap
                (collectCandidateCodes station.name StationType.waterlevel
                  [some query]) with
            | some waterResult =>
              Except.ok (createIntegratedResponse host station.name
                waterResult.1 waterResult.2)
            | none => stationLoop env host query quickMode rest
    | StationType.waterlevel =>
      match env.water with
      | Except.error e => Except.error e
      | Except.ok waterSnap =>
        match resolveWaterLevelRecord host.nowISO waterSnap
            (collectCandidateCodes station.name StationType.waterlevel
              [some station.code, some query]) with
        | some waterResult =>
          Except.ok (createIntegratedResponse host station.name
            waterResult.1 waterResult.2)
        | none =>
          match env.rain with
          | Except.error e => Except.error e
          | Except.ok rainSnap =>
            match resolveRainfallRecord host rainSnap
                (collectCandidateCodes station.name StationType.rainfall
                  [some query]) with
            | some rainfallResult =>
              Except.ok (createIntegratedRainfallResponse host station.name
                rainfallResult.1 rainfallResult.2)
            | none => stationLoop env host query quickMode rest

/-- The `try` body of `searchAndGetData`: keyword classification, directory
search, then either the keyword fallback flow or the candidate-station
loop.  A propagated `Except.error` models an exception reaching the
top-level `catch`. -/
def searchAndGetDataBody (env : FetchEnv) (host : Host) (query : String) :
    Except String IntegratedResponse :=
  let rainfallKeywords := ["우량", "강수", "비", "강수량", "강우", "rainfall"]
  let isRainfallQuery := rainfallKeywords.any (fun keyword => strIncludes query keyword)
  let damKeywords := ["댐", "dam"]
  let isDamQuery := damKeywords.any (fun keyword => strIncludes query keyword)
  let waterLevelKeywords := ["수위", "waterlevel", "water level"]
  let isWaterLevelQuery := waterLevelKeywords.any (fun keyword => strIncludes query keyword)
  let quickMode := isQuickQuery query
  match env.search with
  | Except.error e => Except.error e
  | Except.ok searchResults =>
    if searchResults.isEmpty then
      noSearchFlow env host query isRainfallQuery isDamQuery isWaterLevelQuery quickMode
    else
      stationLoop env host query quickMode
        (prioritizeSearchResults searchResults isRainfallQuery isDamQuery isWaterLevelQuery)

/-- Model of `searchAndGetData`: the body wrapped in the top-level
`try`/`catch` that converts any escaped error into an error response. -/
def searchAndGetData (env : FetchEnv) (host : Host) (query : String) :
    IntegratedResponse :=
  match searchAndGetDataBody env host query with
  | Except.ok response => response
  | Except.error message =>
    createErrorResponse host ("데이터 조회 중 오류가 발생했습니다: " ++ message)

end FloodControlAPI

/-! ## Station directory cache

Two variants of `StationManager` live in the repository:
`src/src/lib/station-manager.ts` (imported by `FloodControlAPI`, namespace
`StationManagerCore` below) matches raw strings only, while the sibling copy
shipped for the serverless entry points (namespace `StationManagerLib`)
normalises names before matching.  Both share the cache/refresh logic. -/

/-- A normalised observatory listing entry (`Observatory` of `lib/types`). -/
structure Observatory where
  obs_code : String
  obs_name : String
  location : Option String := none
  river_name : Option String := none
  deriving DecidableEq, Repr

/-- Keep the first occurrence of each string, in order. -/
def dedupKeepFirst (l : List String) : List String :=
  l.foldl FloodControlAPI.jsSetAdd []

/-- Model of `dedupeByCode`: `Array.from(new Map(map code→item).values())` —
key order is first insertion, the kept value is the last item per code. -/
def dedupeByCode (stations : List StationInfo) : List StationInfo :=
  (dedupKeepFirst (stations.map (fun s => s.code))).filterMap
    (fun c => (stations.filter (fun s => s.code = c)).getLast?)

namespace StationManagerCore

/-- Vetting and mapping of one kind's observatory listing into cached
`StationInfo`s (`fetchAllStations` body, per kind). -/
def mkStationInfos (type : StationType) (observatories : List Observatory) :
    List StationInfo :=
  (observatories.filter (fun obs => obs.obs_code ≠ "" ∧ obs.obs_name ≠ "")).map
    (fun obs =>
      { code := obs.obs_code,
        name :=
          if obs.obs_name = "" then
            (match type with
             | StationType.rainfall => "강우량"
             | StationType.dam => "댐"
             | StationType.waterlevel => "수위") ++ "관측소_" ++ obs.obs_code
          else obs.obs_name,
        type := type,
        location := obs.location,
        river_name := obs.river_name })

/-- Mutable fields of the `StationManager` singleton. -/
structure SMState where
  cache : StationType → Option (List StationInfo)
  lastFetchTime : ℕ
  cacheDuration : ℕ

/-- Model of `fetchAllStations`: skip when the cache is fresh
(`lastFetchTime` truthy and age below the TTL); otherwise call
`getObservatories` once per kind in order, replacing a kind's entry only on
success, and finally stamp `lastFetchTime`.  The second component counts
the upstream `getObservatories` calls made. -/
def fetchAllStations (getObs : StationType → Except String (List Observatory))
    (now : ℕ) (st : SMState) : SMState × ℕ :=
  if st.lastFetchTime ≠ 0 ∧ (now : ℤ) - st.lastFetchTime < st.cacheDuration then
    (st, 0)
  else
    let st1 := [StationType.waterlevel, StationType.rainfall, StationType.dam].foldl
      (fun s type =>
        match getObs type with
        | Except.error _ => s
        | Except.ok observatories =>
          { s with cache := fun t =>
              if t = type then some (mkStationInfos type observatories)
              else s.cache t })
      st
    ({ st1 with lastFetchTime := now }, 3)

/-- Substring test guarded by presence (`x && x.includes(q)`). -/
def optIncludes (field : Option String) (query : String) : Bool :=
  match field with
  | some s => s ≠ "" && strIncludes s query
  | none => false

/-- Model of `findMatches` (raw-string matching only): exact name equality
first, else bidirectional name containment or location/river containment. -/
def findMatches (stations : List StationInfo) (query : String) : List StationInfo :=
  if stations.isEmpty then []
  else
    let exactMatches := stations.filter (fun station => station.name = query)
    if ¬ exactMatches.isEmpty then dedupeByCode exactMatches
    else
      dedupeByCode (stations.filter (fun station =>
        (station.name ≠ "" && strIncludes station.name query) ||
        (station.name ≠ "" && strIncludes query station.name) ||
        optIncludes station.location query ||
        optIncludes station.river_name query))

/-- Kind loop of `searchByName`: first kind with any match wins. -/
def searchKinds (cache : StationType → Option (List StationInfo))
    (query : String) : List StationType → List StationInfo
  | [] => []
  | t :: rest =>
    let stations := (cache t).getD []
    let found := findMatches stations query
    if found.isEmpty then searchKinds cache query rest else found

/-- Model of `searchByName` (src/src/lib variant): refresh if stale, then
try the kinds in fixed order, returning the first kind's matches. -/
def searchByName (getObs : StationType → Except String (List Observatory))
    (now : ℕ) (query : String) (type : Option StationType) (st : SMState) :
    List StationInfo × SMState × ℕ :=
  let refreshed := fetchAllStations getObs now st
  let searchTypes :=
    match type with
    | some t => [t]
    | none => [StationType.dam, StationType.waterlevel, StationType.rainfall]
  (searchKinds refreshed.1.cache query searchTypes, refreshed)

end StationManagerCore

namespace StationManagerLib

/-- The static `SEARCH_STOPWORDS` list of the normalising variant. -/
def SEARCH_STOPWORDS : List String :=
  ["우량", "강수", "강우", "비", "관측소", "수위", "정보", "실시간",
   "조회", "데이터", "측정", "홍수", "댐", "대교"]

/-- Model of `normalizeSearchText`: strip whitespace, brackets and hyphens,
lower-case, then delete every stop word (sequentially, in list order).
`Char.toLower` models `toLowerCase` (they agree on ASCII; Hangul has no
case). -/
def normalizeSearchText (value : Option String) : String :=
  match value with
  | none => ""
  | some v =>
    if v = "" then ""
    else
      let s1 := String.mk (v.data.filter (fun c => ¬ c.isWhitespace))
      let s2 := String.mk (s1.data.filter (fun c =>
        ¬ (c = '(' ∨ c = ')' ∨ c = '[' ∨ c = ']' ∨ c = '\x7b' ∨ c = '\x7d')))
      let s3 := String.mk (s2.data.filter (fun c => ¬ (c = '-')))
      let s4 := jsToLower s3
      SEARCH_STOPWORDS.foldl
        (fun acc keyword =>
          if keyword = "" then acc
          else strReplaceAll acc (jsToLower keyword) "")
        s4

/-- Model of `partialMatch` of the normalising variant. -/
def partMatch (source : Option String) (rawQuery : String)
    (normalizedQuery : String) : Bool :=
  match source with
  | none => false
  | some src =>
    if src = "" then false
    else
      let normalizedSource := normalizeSearchText (some src)
      let hasRaw := rawQuery.length > 0
      let hasNormalized := normalizedQuery.length > 0
      if ¬ hasRaw ∧ ¬ hasNormalized then false
      else
        (hasRaw && strIncludes src rawQuery) ||
        (hasRaw && strIncludes rawQuery src) ||
        (hasNormalized && strIncludes normalizedSource normalizedQuery) ||
        (hasNormalized && strIncludes normalizedQuery normalizedSource)

/-- Matching core of the normalising variant's `searchByName`, given the
fetched cache contents: per kind, exact matches (raw or normalised name
equality) first, then partial matches on name/location/river, concatenated
over the kinds and deduplicated by code. -/
def searchCache (cache : StationType → List StationInfo) (query : String)
    (type : Option StationType) : List StationInfo :=
  let trimmedQuery := jsTrim query
  let normalizedQuery := normalizeSearchText (some trimmedQuery)
  let searchTypes :=
    match type with
    | some t => [t]
    | none => [StationType.waterlevel, StationType.rainfall, StationType.dam]
  let results := searchTypes.foldl
    (fun acc searchType =>
      let stations := cache searchType
      let exactMatches := stations.filter (fun station =>
        station.name = trimmedQuery ∨
        normalizeSearchText (some station.name) = normalizedQuery)
      let exactMatchCodes := exactMatches.map (fun item => item.code)
      let partMatches := stations.filter (fun station =>
        ¬ exactMatchCodes.contains station.code ∧
        (partMatch (some station.name) trimmedQuery normalizedQuery ||
         partMatch station.location trimmedQuery normalizedQuery ||
         partMatch station.river_name trimmedQuery normalizedQuery))
      acc ++ exactMatches ++ partMatches)
    []
  dedupeByCode results

end StationManagerLib

/-! ## `src/apis/base/BaseAPI.ts` — retry wrapper -/

namespace BaseAPI

/-- The `RetryOptions` record. -/
structure RetryOptions where
  attempts : ℕ
  initialDelayMs : ℕ
  maxDelayMs : ℕ
  deriving DecidableEq, Repr

/-- `DEFAULT_RETRY` constants. -/
def DEFAULT_RETRY : RetryOptions :=
  { attempts := 3, initialDelayMs := 200, maxDelayMs := 2000 }

/-- Loop of `BaseAPI.retry`, starting at attempt number `attempt` with
`remaining` attempts left and the current backoff `delayMs`.  `fn n` is the
outcome of the n-th invocation of the wrapped operation.  Returns the
overall outcome (`Except.error` carries the last error, `none` when no
attempt ever ran, mirroring `throw lastError` with `lastError` undefined),
the number of invocations of `fn`, and the list of waits performed. -/
def retryFrom (fn : ℕ → Except ε α) (attempt remaining delayMs : ℕ)
    (lastErr : Option ε) : Except (Option ε) α × ℕ × List ℕ :=
  match remaining with
  | 0 => (Except.error lastErr, 0, [])
  | r + 1 =>
    match fn attempt with
    | Except.ok a => (Except.ok a, 1, [])
    | Except.error e =>
      if r = 0 then (Except.error (some e), 1, [])
      else
        let rest := retryFrom fn (attempt + 1) r
          (min (delayMs * 2) DEFAULT_RETRY.maxDelayMs) (some e)
        (rest.1, rest.2.1 + 1, delayMs :: rest.2.2)

/-- Model of `BaseAPI.retry`: up to `attempts` invocations with exponential
backoff starting at the default initial delay. -/
def retry (fn : ℕ → Except ε α) (attempts : ℕ) :
    Except (Option ε) α × ℕ × List ℕ :=
  retryFrom fn 1 attempts DEFAULT_RETRY.initialDelayMs none

end BaseAPI

/-- Candidate generation as worded by the spec claim (C4): explicit codes,
then an exact-key-only alias-table lookup of the raw name, then of the
whitespace-stripped name, then the purely numeric query — deduplicated
preserving priority.  This follows the claim's words, for comparison with
the source's `collectCandidateCodes` (whose alias lookup falls back to
substring containment). -/
def collectCandidateCodesClaimed (stationName : String) (type : StationType)
    (additional : List (Option String)) : List String :=
  dedupKeepFirst
    ((additional.filterMap (fun code =>
        let normalized := FloodControlAPI.normalizeCode code
        if normalized = "" then none else some normalized))
      ++ (((STATION_CODE_MAPPING type).find?
            (fun p => p.1 = stationName)).map (fun p => p.2)).toList
      ++ (if FloodControlAPI.stripWS stationName ≠ stationName then
            (((STATION_CODE_MAPPING type).find?
              (fun p => p.1 = FloodControlAPI.stripWS stationName)).map
                (fun p => p.2)).toList
          else [])
      ++ (if FloodControlAPI.isAllDigits (jsTrim stationName) then
            [jsTrim stationName]
          else []))


/-- A fixed host valuation used to instantiate the response builders at
concrete inputs. -/
def sampleHost : Host :=
  { nowISO := "", nowLocaleKo := "", random := 0, koTime := fun s => s,
    toISO := fun _ => none, dateMillis := fun _ => none,
    localeInt := fun _ => "", localeFrac := fun _ => "", numStr := fun _ => "",
    koLe := fun _ _ => true }

/-- A rainfall snapshot holding one record resolvable for the literal code
`99` with a parseable current-rainfall value. -/
def sampleRainSnapshot : List RainfallRecord :=
  [[("rfobscd", some "99"), ("rf", some "4.0")]]

/-- A fetch environment where the directory search returns no hits and the
water-level snapshot fetch rejects, while the rainfall snapshot still holds
a record resolvable for the code `99`. -/
def sampleEnvWaterDown : FloodControlAPI.FetchEnv :=
  { search := Except.ok [],
    water := Except.error "water down",
    rain := Except.ok sampleRainSnapshot,
    dam := Except.ok ([], []),
    damSeries := fun _ _ => Except.error "series unavailable" }

/-! # Theorems -/

/-- C1: `analyzeWaterLevel` follows the fixed threshold rule: a
non-positive flood limit yields the insufficient-information result with
unknown risk; otherwise, with `D = L - F`, `D > 0` is exactly the
exceeded/high branch, `0 ≥ D > -1` (including `L = F`) exactly the
near-limit/medium branch, `D ≤ -1` exactly the safe/low branch — mutually
exclusive and exhaustive — and the reported percentage difference is
`(L - F) / F * 100` (with the level difference `L - F`). -/
theorem analyzeWaterLevel_threshold_rule (L F : ℚ) :
    (F ≤ 0 →
      (FloodControlAPI.analyzeWaterLevel L F).status = "정보부족" ∧
      (FloodControlAPI.analyzeWaterLevel L F).risk_level = "unknown") ∧
    (0 < F →
      (((FloodControlAPI.analyzeWaterLevel L F).status = "제한수위 초과" ∧
        (FloodControlAPI.analyzeWaterLevel L F).risk_level = "high") ↔ 0 < L - F) ∧
      (((FloodControlAPI.analyzeWaterLevel L F).status = "제한수위 근접" ∧
        (FloodControlAPI.analyzeWaterLevel L F).risk_level = "medium") ↔
          (-1 < L - F ∧ L - F ≤ 0)) ∧
      (((FloodControlAPI.analyzeWaterLevel L F).status = "안전" ∧
        (FloodControlAPI.analyzeWaterLevel L F).risk_level = "low") ↔ L - F ≤ -1) ∧
      (FloodControlAPI.analyzeWaterLevel L F).percentage_difference
        = some ((L - F) / F * 100) ∧
      (FloodControlAPI.analyzeWaterLevel L F).level_difference = some (L - F)) := by
  by_cases hF : F ≤ 0
  · refine ⟨fun _ => ?_, fun h0 => absurd hF (not_le.mpr h0)⟩
    simp [FloodControlAPI.analyzeWaterLevel, hF]
  · refine ⟨fun h => absurd h hF, fun _ => ?_⟩
    by_cases h1 : 0 < L - F
    · simp only [FloodControlAPI.analyzeWaterLevel, if_neg hF, if_pos h1]
      refine ⟨by simp [h1], ?_, ?_, trivial, trivial⟩
      · constructor
        · intro h
          exact absurd h.1 (by decide)
        · intro h
          exfalso
          linarith [h.2]
      · constructor
        · intro h
          exact absurd h.1 (by decide)
        · intro h
          exfalso
          linarith
    · have h1' : L - F ≤ 0 := not_lt.mp h1
      by_cases h2 : -1 < L - F
      · simp only [FloodControlAPI.analyzeWaterLevel, if_neg hF, if_neg h1, if_pos h2]
        refine ⟨?_, by simp [h2, h1'], ?_, trivial, trivial⟩
        · constructor
          · intro h
            exact absurd h.1 (by decide)
          · intro h
            exact absurd h h1
        · constructor
          · intro h
            exact absurd h.1 (by decide)
          · intro h
            exfalso
            linarith
      · have h2' : L - F ≤ -1 := not_lt.mp h2
        simp only [FloodControlAPI.analyzeWaterLevel, if_neg hF, if_neg h1, if_neg h2]
        refine ⟨?_, ?_, by simp [h2'], trivial, trivial⟩
        · constructor
          · intro h
            exact absurd h.1 (by decide)
          · intro h
            exact absurd h h1
        · constructor
          · intro h
            exact absurd h.1 (by decide)
          · intro h
            exact absurd h.1 h2

/-- C1 witness: at level 5 and flood limit 4 the hypotheses hold and the
exceeded/high branch fires. -/
theorem analyzeWaterLevel_threshold_rule_witness :
    (0 : ℚ) < 4 ∧
    (FloodControlAPI.analyzeWaterLevel 5 4).status = "제한수위 초과" ∧
    (FloodControlAPI.analyzeWaterLevel 5 4).risk_level = "high" ∧
    (FloodControlAPI.analyzeWaterLevel 5 4).percentage_difference = some 25 := by
  have h := analyzeWaterLevel_threshold_rule 5 4
  have h2 := h.2 (by norm_num)
  have hx := h2.1.mpr (by norm_num)
  refine ⟨by norm_num, hx.1, hx.2, ?_⟩
  rw [h2.2.2.2.1]
  norm_num

/-- C6: `analyzeTrend` compares the first two readings: with fewer than two
entries or a non-finite value among the first two it returns the neutral
insufficient-data result (direction 안정, change 0); with two finite values
the direction is 상승 exactly when the delta is ≥ 0.1, 하강 exactly when it
is ≤ -0.1, 안정 otherwise, and the reported change is the delta. -/
theorem analyzeTrend_thresholds (data : List TSEntry) (vf : List String) :
    TimeSeriesAnalyzer.neutralTrend.direction = "안정" ∧
    TimeSeriesAnalyzer.neutralTrend.change = 0 ∧
    (data.length < 2 →
      TimeSeriesAnalyzer.analyzeTrend data vf = TimeSeriesAnalyzer.neutralTrend) ∧
    (∀ e0 e1 rest, data = e0 :: e1 :: rest →
      ((TimeSeriesAnalyzer.extractValue e0 vf = none ∨
        TimeSeriesAnalyzer.extractValue e1 vf = none) →
        TimeSeriesAnalyzer.analyzeTrend data vf = TimeSeriesAnalyzer.neutralTrend) ∧
      (∀ l p, TimeSeriesAnalyzer.extractValue e0 vf = some l →
        TimeSeriesAnalyzer.extractValue e1 vf = some p →
        (TimeSeriesAnalyzer.analyzeTrend data vf).change = l - p ∧
        ((TimeSeriesAnalyzer.analyzeTrend data vf).direction = "상승" ↔
          1 / 10 ≤ l - p) ∧
        ((TimeSeriesAnalyzer.analyzeTrend data vf).direction = "하강" ↔
          l - p ≤ -(1 / 10)) ∧
        ((TimeSeriesAnalyzer.analyzeTrend data vf).direction = "안정" ↔
          (-(1 / 10) < l - p ∧ l - p < 1 / 10)))) := by
  refine ⟨rfl, rfl, ?_, ?_⟩
  · intro hlen
    unfold TimeSeriesAnalyzer.analyzeTrend
    rw [if_pos hlen]
  · intro e0 e1 rest hdata
    subst hdata
    have hlen : ¬ (e0 :: e1 :: rest).length < 2 := by
      simp [List.length_cons]
    constructor
    · intro hnone
      unfold TimeSeriesAnalyzer.analyzeTrend
      rw [if_neg hlen]
      rcases hnone with h | h
      · rcases hv : TimeSeriesAnalyzer.extractValue e1 vf with _ | v <;>
          simp only [h, hv]
      · rcases hv : TimeSeriesAnalyzer.extractValue e0 vf with _ | v <;>
          simp only [h, hv]
    · intro l p hl hp
      unfold TimeSeriesAnalyzer.analyzeTrend
      rw [if_neg hlen]
      simp only [hl, hp]
      by_cases habs : 1 / 10 ≤ |l - p|
      · by_cases hpos : 0 < l - p
        · rw [if_pos habs, if_pos hpos]
          have hge : 1 / 10 ≤ l - p := by
            rwa [abs_of_pos hpos] at habs
          refine ⟨rfl, ⟨fun _ => hge, fun _ => rfl⟩, ?_, ?_⟩
          · constructor
            · intro h
              exact absurd (show "상승" = "하강" from h) (by decide)
            · intro h
              exfalso
              linarith
          · constructor
            · intro h
              exact absurd (show "상승" = "안정" from h) (by decide)
            · intro h
              exfalso
              linarith [h.2]
        · rw [if_pos habs, if_neg hpos]
          have hle : l - p ≤ -(1 / 10) := by
            rcases abs_cases (l - p) with ⟨heq, _⟩ | ⟨heq, _⟩
            · rw [heq] at habs
              exfalso
              exact hpos (by linarith)
            · rw [heq] at habs
              linarith
          refine ⟨rfl, ?_, ⟨fun _ => hle, fun _ => rfl⟩, ?_⟩
          · constructor
            · intro h
              exact absurd (show "하강" = "상승" from h) (by decide)
            · intro h
              exfalso
              linarith
          · constructor
            · intro h
              exact absurd (show "하강" = "안정" from h) (by decide)
            · intro h
              exfalso
              linarith [h.1]
      · rw [if_neg habs]
        have hband : -(1 / 10) < l - p ∧ l - p < 1 / 10 := by
          have := abs_lt.mp (not_le.mp habs)
          exact ⟨this.1, this.2⟩
        refine ⟨rfl, ?_, ?_, ⟨fun _ => hband, fun _ => rfl⟩⟩
        · constructor
          · intro h
            exact absurd (show "안정" = "상승" from h) (by decide)
          · intro h
            exfalso
            linarith [hband.2]
        · constructor
          · intro h
            exact absurd (show "안정" = "하강" from h) (by decide)
          · intro h
            exfalso
            linarith [hband.1]

/-- Backoff cap algebra: doubling a capped delay equals capping the doubled
delay. -/
lemma minDouble (x : ℕ) : min (min x 2000 * 2) 2000 = min (x * 2) 2000 := by
  rcases le_total x 2000 with h | h
  · rw [min_eq_left h]
  · rw [min_eq_right h]
    omega

/-- Induction workhorse for the retry wrapper: behaviour of `retryFrom`
starting at attempt `attempt ≥ 1` with the invariant backoff value. -/
lemma retryFrom_spec (fn : ℕ → Except ε α) :
    ∀ (remaining attempt : ℕ) (lastErr : Option ε), 1 ≤ remaining → 1 ≤ attempt →
    (1 ≤ (BaseAPI.retryFrom fn attempt remaining
        (min (200 * 2 ^ (attempt - 1)) 2000) lastErr).2.1 ∧
      (BaseAPI.retryFrom fn attempt remaining
        (min (200 * 2 ^ (attempt - 1)) 2000) lastErr).2.1 ≤ remaining) ∧
    (∀ a, (BaseAPI.retryFrom fn attempt remaining
        (min (200 * 2 ^ (attempt - 1)) 2000) lastErr).1 = Except.ok a →
      fn (attempt + (BaseAPI.retryFrom fn attempt remaining
        (min (200 * 2 ^ (attempt - 1)) 2000) lastErr).2.1 - 1) = Except.ok a ∧
      (∀ j, attempt ≤ j →
        j < attempt + (BaseAPI.retryFrom fn attempt remaining
          (min (200 * 2 ^ (attempt - 1)) 2000) lastErr).2.1 - 1 →
        ∃ e, fn j = Except.error e)) ∧
    ((∀ j, attempt ≤ j → j < attempt + remaining → ∃ e, fn j = Except.error e) →
      (BaseAPI.retryFrom fn attempt remaining
        (min (200 * 2 ^ (attempt - 1)) 2000) lastErr).2.1 = remaining ∧
      ∃ e, fn (attempt + remaining - 1) = Except.error e ∧
        (BaseAPI.retryFrom fn attempt remaining
          (min (200 * 2 ^ (attempt - 1)) 2000) lastErr).1 = Except.error (some e)) ∧
    (BaseAPI.retryFrom fn attempt remaining
        (min (200 * 2 ^ (attempt - 1)) 2000) lastErr).2.2 =
      (List.range ((BaseAPI.retryFrom fn attempt remaining
        (min (200 * 2 ^ (attempt - 1)) 2000) lastErr).2.1 - 1)).map
        (fun j => min (200 * 2 ^ (attempt - 1 + j)) 2000) := by
  intro remaining
  induction remaining with
  | zero =>
    intro _ _ h
    omega
  | succ r ih =>
    intro attempt lastErr _ hatt
    cases hfa : fn attempt with
    | ok a =>
      unfold BaseAPI.retryFrom
      simp only [hfa]
      refine ⟨⟨le_refl 1, by omega⟩, ?_, ?_, by simp⟩
      · intro b hb
        cases hb
        refine ⟨by simpa using hfa, ?_⟩
        intro j hj1 hj2
        omega
      · intro hall
        obtain ⟨e, he⟩ := hall attempt le_rfl (by omega)
        rw [hfa] at he
        exact Except.noConfusion he
    | error e =>
      by_cases hr : r = 0
      · subst hr
        unfold BaseAPI.retryFrom
        simp only [hfa, if_pos rfl]
        refine ⟨⟨le_refl 1, le_refl 1⟩, ?_, ?_, by simp⟩
        · intro b hb
          exact Except.noConfusion hb
        · intro _
          exact ⟨rfl, e, by simpa using hfa, rfl⟩
      · have hr1 : 1 ≤ r := Nat.one_le_iff_ne_zero.mpr hr
        have hdexp : 200 * 2 ^ (attempt - 1) * 2 = 200 * 2 ^ (attempt + 1 - 1) := by
          rw [mul_assoc, ← pow_succ]
          congr 2
          omega
        have hdelay : min (min (200 * 2 ^ (attempt - 1)) 2000 * 2)
            BaseAPI.DEFAULT_RETRY.maxDelayMs
            = min (200 * 2 ^ (attempt + 1 - 1)) 2000 := by
          have hmax : BaseAPI.DEFAULT_RETRY.maxDelayMs = 2000 := rfl
          rw [hmax, minDouble, hdexp]
        have ihx := ih (attempt + 1) (some e) hr1 (by omega)
        unfold BaseAPI.retryFrom
        simp only [hfa, if_neg hr, hdelay]
        set R := BaseAPI.retryFrom fn (attempt + 1) r
          (min (200 * 2 ^ (attempt + 1 - 1)) 2000) (some e) with hR
        rcases ihx with ⟨⟨hc1, hc2⟩, hok, hfail, hdel⟩
        refine ⟨⟨by omega, by omega⟩, ?_, ?_, ?_⟩
        · intro b hb
          obtain ⟨hfb, hprev⟩ := hok b hb
          constructor
          · have heq : attempt + (R.2.1 + 1) - 1 = attempt + 1 + R.2.1 - 1 := by
              omega
            rw [heq]
            exact hfb
          · intro j hj1 hj2
            rcases eq_or_lt_of_le hj1 with hje | hjlt
            · exact ⟨e, hje ▸ hfa⟩
            · exact hprev j (by omega) (by omega)
        · intro hall
          obtain ⟨hcr, e', he', hres⟩ := hfail
            (fun j hj1 hj2 => hall j (by omega) (by omega))
          refine ⟨by omega, e', ?_, hres⟩
          have heq : attempt + (r + 1) - 1 = attempt + 1 + r - 1 := by
            omega
          rw [heq]
          exact he'
        · rw [hdel]
          have hsplit : R.2.1 + 1 - 1 = (R.2.1 - 1) + 1 := by
            omega
          rw [hsplit, List.range_succ_eq_map, List.map_cons, List.map_map]
          have hhead : min (200 * 2 ^ (attempt - 1 + 0)) 2000
              = min (200 * 2 ^ (attempt - 1)) 2000 := by
            rw [Nat.add_zero]
          have htail : ((fun j => min (200 * 2 ^ (attempt - 1 + j)) 2000) ∘ Nat.succ)
              = fun j => min (200 * 2 ^ (attempt + 1 - 1 + j)) 2000 := by
            funext j
            show min (200 * 2 ^ (attempt - 1 + Nat.succ j)) 2000
              = min (200 * 2 ^ (attempt + 1 - 1 + j)) 2000
            have he2 : attempt - 1 + Nat.succ j = attempt + 1 - 1 + j := by
              omega
            rw [he2]
          rw [hhead, htail]

/-- C9: for an attempt budget n ≥ 1, `retry` invokes the wrapped operation
at most n times; a first success at attempt k (after k-1 failures of any
kind) is returned with exactly k invocations; if all n attempts throw, the
last error is rethrown after exactly n invocations; and the waits between
consecutive attempts are 200ms doubled each retry and capped at 2000ms. -/
theorem retry_exponential_backoff (fn : ℕ → Except ε α) (n : ℕ) (h : 1 ≤ n) :
    (BaseAPI.retry fn n).2.1 ≤ n ∧
    (∀ a, (BaseAPI.retry fn n).1 = Except.ok a →
      ∃ k, 1 ≤ k ∧ k ≤ n ∧ fn k = Except.ok a ∧
        (∀ j, 1 ≤ j → j < k → ∃ e, fn j = Except.error e) ∧
        (BaseAPI.retry fn n).2.1 = k) ∧
    ((∀ j, 1 ≤ j → j ≤ n → ∃ e, fn j = Except.error e) →
      (BaseAPI.retry fn n).2.1 = n ∧
      ∃ e, fn n = Except.error e ∧ (BaseAPI.retry fn n).1 = Except.error (some e)) ∧
    (BaseAPI.retry fn n).2.2 =
      (List.range ((BaseAPI.retry fn n).2.1 - 1)).map
        (fun j => min (200 * 2 ^ j) 2000) := by
  have hretry : BaseAPI.retry fn n
      = BaseAPI.retryFrom fn 1 n (min (200 * 2 ^ (1 - 1)) 2000) none := by
    unfold BaseAPI.retry
    have hi : BaseAPI.DEFAULT_RETRY.initialDelayMs = 200 := rfl
    rw [hi]
    norm_num
  obtain ⟨⟨hc1, hc2⟩, hok, hfail, hdel⟩ := retryFrom_spec fn n 1 none h le_rfl
  rw [hretry]
  refine ⟨hc2, ?_, ?_, ?_⟩
  · intro a ha
    obtain ⟨hfb, hprev⟩ := hok a ha
    refine ⟨(BaseAPI.retryFrom fn 1 n (min (200 * 2 ^ (1 - 1)) 2000) none).2.1,
      hc1, hc2, ?_, ?_, rfl⟩
    · have heq : 1 + (BaseAPI.retryFrom fn 1 n
          (min (200 * 2 ^ (1 - 1)) 2000) none).2.1 - 1
          = (BaseAPI.retryFrom fn 1 n (min (200 * 2 ^ (1 - 1)) 2000) none).2.1 := by
        omega
      rw [heq] at hfb
      exact hfb
    · intro j hj1 hj2
      exact hprev j hj1 (by omega)
  · intro hall
    obtain ⟨hc, e, hfe, hres⟩ := hfail (fun j hj1 hj2 => hall j hj1 (by omega))
    refine ⟨hc, e, ?_, hres⟩
    have heq : 1 + n - 1 = n := by
      omega
    rw [heq] at hfe
    exact hfe
  · rw [hdel]
    have hfun : (fun j => min (200 * 2 ^ (1 - 1 + j)) 2000)
        = fun j => min (200 * 2 ^ j) 2000 := by
      funext j
      norm_num
    rw [hfun]

/-- C9 witness: budget 3, first attempt throws, second succeeds — two
invocations and a single 200ms wait, via the theorem at this input. -/
theorem retry_exponential_backoff_witness :
    (1 : ℕ) ≤ 3 ∧
    (BaseAPI.retry
      (fun k => if k = 1 then Except.error "boom" else Except.ok "done") 3).2.1 ≤ 3 ∧
    (BaseAPI.retry
      (fun k => if k = 1 then Except.error "boom" else Except.ok "done") 3).2.2
      = [200] := by
  have h := retry_exponential_backoff
    (fun k => if k = 1 then Except.error "boom" else Except.ok "done") 3 (by norm_num)
  refine ⟨by norm_num, h.1, ?_⟩
  rw [h.2.2.2]
  decide

/-- Membership in a JavaScript-set fold. -/
lemma mem_foldl_jsSetAdd (l : List String) : ∀ (acc : List String) (x : String),
    (x ∈ l.foldl FloodControlAPI.jsSetAdd acc) ↔ x ∈ acc ∨ x ∈ l := by
  induction l with
  | nil =>
    intro acc x
    simp
  | cons y rest ih =>
    intro acc x
    rw [List.foldl_cons, ih]
    unfold FloodControlAPI.jsSetAdd
    by_cases hy : acc.contains y
    · rw [if_pos hy]
      have hymem : y ∈ acc := List.elem_iff.mp hy
      constructor
      · rintro (h | h)
        · exact Or.inl h
        · exact Or.inr (List.mem_cons_of_mem _ h)
      · rintro (h | h)
        · exact Or.inl h
        · rcases List.mem_cons.mp h with h' | h'
          · exact Or.inl (h' ▸ hymem)
          · exact Or.inr h'
    · rw [if_neg hy]
      constructor
      · rintro (h | h)
        · rcases List.mem_append.mp h with h' | h'
          · exact Or.inl h'
          · exact Or.inr (List.mem_cons.mpr (Or.inl (List.mem_singleton.mp h')))
        · exact Or.inr (List.mem_cons_of_mem _ h)
      · rintro (h | h)
        · exact Or.inl (List.mem_append.mpr (Or.inl h))
        · rcases List.mem_cons.mp h with h' | h'
          · exact Or.inl (List.mem_append.mpr (Or.inr (List.mem_singleton.mpr h')))
          · exact Or.inr h'

/-- Deduplication preserves membership. -/
lemma mem_dedupKeepFirst (l : List String) (x : String) :
    x ∈ dedupKeepFirst l ↔ x ∈ l := by
  unfold dedupKeepFirst
  rw [mem_foldl_jsSetAdd]
  simp

/-- Code-level membership is invariant under `dedupeByCode`. -/
lemma mem_dedupeByCode_code (l : List StationInfo) (c : String) :
    (∃ s ∈ dedupeByCode l, s.code = c) ↔ (∃ s ∈ l, s.code = c) := by
  constructor
  · rintro ⟨s, hs, hc⟩
    unfold dedupeByCode at hs
    rw [List.mem_filterMap] at hs
    obtain ⟨c', _, hlast⟩ := hs
    have hmem : s ∈ l.filter (fun x => x.code = c') :=
      List.mem_of_getLast?_eq_some hlast
    exact ⟨s, (List.mem_filter.mp hmem).1, hc⟩
  · rintro ⟨s, hs, hc⟩
    have hmemmap : c ∈ l.map (fun s => s.code) := List.mem_map.mpr ⟨s, hs, hc⟩
    have hdk : c ∈ dedupKeepFirst (l.map (fun s => s.code)) :=
      (mem_dedupKeepFirst _ _).mpr hmemmap
    have hne : l.filter (fun x => x.code = c) ≠ [] := by
      intro hnil
      have hsin : s ∈ l.filter (fun x => x.code = c) :=
        List.mem_filter.mpr ⟨hs, by simp [hc]⟩
      rw [hnil] at hsin
      exact List.not_mem_nil s hsin
    rcases hgl : (l.filter (fun x => x.code = c)).getLast? with _ | s'
    · exact absurd (List.getLast?_eq_none_iff.mp hgl) hne
    · have hs'f : s' ∈ l.filter (fun x => x.code = c) :=
        List.mem_of_getLast?_eq_some hgl
      refine ⟨s', ?_, ?_⟩
      · unfold dedupeByCode
        rw [List.mem_filterMap]
        exact ⟨c, hdk, hgl⟩
      · have := (List.mem_filter.mp hs'f).2
        exact of_decide_eq_true this

/-- Code-level membership in the exact-plus-partial filter pair equals a
match of either kind on the underlying stations. -/
lemma filter_exact_partial_mem_code (stations : List StationInfo)
    (pE : StationInfo → Prop) [DecidablePred pE] (pB : StationInfo → Bool) (c : String) :
    (∃ s ∈ stations.filter (fun s => decide (pE s))
        ++ stations.filter (fun s =>
          decide (¬ ((stations.filter (fun s => decide (pE s))).map
            (fun item => item.code)).contains s.code = true ∧ pB s = true)),
      s.code = c)
    ↔ ∃ s ∈ stations, s.code = c ∧ (pE s ∨ pB s = true) := by
  constructor
  · rintro ⟨s, hs, hc⟩
    rcases List.mem_append.mp hs with h | h
    · obtain ⟨hbase, hp⟩ := List.mem_filter.mp h
      exact ⟨s, hbase, hc, Or.inl (of_decide_eq_true hp)⟩
    · obtain ⟨hbase, hp⟩ := List.mem_filter.mp h
      exact ⟨s, hbase, hc, Or.inr (of_decide_eq_true hp).2⟩
  · rintro ⟨s, hs, hc, hcond⟩
    by_cases hE : pE s
    · exact ⟨s, List.mem_append.mpr (Or.inl (List.mem_filter.mpr
        ⟨hs, decide_eq_true hE⟩)), hc⟩
    · rcases hcond with h1 | h2
      · exact absurd h1 hE
      · by_cases hcont : ((stations.filter (fun s => decide (pE s))).map
            (fun item => item.code)).contains s.code
        · obtain ⟨s', hs', hcodeEq⟩ := List.mem_map.mp (List.elem_iff.mp hcont)
          exact ⟨s', List.mem_append.mpr (Or.inl hs'), hcodeEq.trans hc⟩
        · refine ⟨s, List.mem_append.mpr (Or.inr (List.mem_filter.mpr
            ⟨hs, decide_eq_true ⟨?_, h2⟩⟩)), hc⟩
          simpa using hcont
  
/-- Code-level membership in the per-kind accumulation fold. -/
lemma mem_foldl_seg2 (e p : StationType → List StationInfo) (c : String) :
    ∀ (ts : List StationType) (acc : List StationInfo),
    (∃ s ∈ ts.foldl (fun acc t => acc ++ e t ++ p t) acc, s.code = c) ↔
      (∃ s ∈ acc, s.code = c) ∨ ∃ t ∈ ts, ∃ s ∈ e t ++ p t, s.code = c := by
  intro ts
  induction ts with
  | nil =>
    intro acc
    simp
  | cons t rest ih =>
    intro acc
    rw [List.foldl_cons, ih]
    constructor
    · rintro (⟨s, hs, hc⟩ | h)
      · rcases List.mem_append.mp hs with h' | h'
        · rcases List.mem_append.mp h' with h'' | h''
          · exact Or.inl ⟨s, h'', hc⟩
          · exact Or.inr ⟨t, List.mem_cons_self t rest,
              s, List.mem_append.mpr (Or.inl h''), hc⟩
        · exact Or.inr ⟨t, List.mem_cons_self t rest,
            s, List.mem_append.mpr (Or.inr h'), hc⟩
      · obtain ⟨t', ht', hrest⟩ := h
        exact Or.inr ⟨t', List.mem_cons_of_mem t ht', hrest⟩
    · rintro (⟨s, hs, hc⟩ | h)
      · exact Or.inl ⟨s, List.mem_append.mpr
          (Or.inl (List.mem_append.mpr (Or.inl hs))), hc⟩
      · obtain ⟨t', ht', s, hs, hc⟩ := h
        rcases List.mem_cons.mp ht' with h' | h'
        · subst h'
          rcases List.mem_append.mp hs with h'' | h''
          · exact Or.inl ⟨s, List.mem_append.mpr
              (Or.inl (List.mem_append.mpr (Or.inr h''))), hc⟩
          · exact Or.inl ⟨s, List.mem_append.mpr (Or.inr h''), hc⟩
        · exact Or.inr ⟨t', h', s, hs, hc⟩

/-- C5 (amended): the normalising `StationManager` variant's search —
`searchCache`, the matching core of its `searchByName` — returns a station
code exactly when some station of a searched kind carries that code and
matches the trimmed query by raw name equality, by equality of the
normalised forms (whitespace/bracket/hyphen-stripped, lower-cased,
stop-words removed), or by raw/normalised bidirectional substring
containment on name, location or river name. -/
theorem searchCache_normalized_membership (cache : StationType → List StationInfo)
    (query : String) (otype : Option StationType) (c : String) :
    (∃ s ∈ StationManagerLib.searchCache cache query otype, s.code = c) ↔
    (∃ t ∈ (match otype with
            | some t => [t]
            | none => [StationType.waterlevel, StationType.rainfall, StationType.dam]),
      ∃ s ∈ cache t, s.code = c ∧
        (s.name = jsTrim query ∨
         StationManagerLib.normalizeSearchText (some s.name)
           = StationManagerLib.normalizeSearchText (some (jsTrim query)) ∨
         (StationManagerLib.partMatch (some s.name) (jsTrim query)
            (StationManagerLib.normalizeSearchText (some (jsTrim query))) ||
          StationManagerLib.partMatch s.location (jsTrim query)
            (StationManagerLib.normalizeSearchText (some (jsTrim query))) ||
          StationManagerLib.partMatch s.river_name (jsTrim query)
            (StationManagerLib.normalizeSearchText (some (jsTrim query)))) = true)) := by
  unfold StationManagerLib.searchCache
  rw [mem_dedupeByCode_code]
  refine Iff.trans (mem_foldl_seg2
    (fun t => (cache t).filter (fun station =>
      decide (station.name = jsTrim query ∨
        StationManagerLib.normalizeSearchText (some station.name)
          = StationManagerLib.normalizeSearchText (some (jsTrim query)))))
    (fun t => (cache t).filter (fun station =>
      decide (¬ (((cache t).filter (fun station =>
          decide (station.name = jsTrim query ∨
            StationManagerLib.normalizeSearchText (some station.name)
              = StationManagerLib.normalizeSearchText (some (jsTrim query))))).map
          (fun item => item.code)).contains station.code = true ∧
        (StationManagerLib.partMatch (some station.name) (jsTrim query)
          (StationManagerLib.normalizeSearchText (some (jsTrim query))) ||
         StationManagerLib.partMatch station.location (jsTrim query)
          (StationManagerLib.normalizeSearchText (some (jsTrim query))) ||
         StationManagerLib.partMatch station.river_name (jsTrim query)
          (StationManagerLib.normalizeSearchText (some (jsTrim query)))) = true)))
    c _ []) ?_
  rw [or_iff_right (by simp)]
  refine Iff.trans (exists_congr (fun t => and_congr_right (fun _ =>
    filter_exact_partial_mem_code (cache t)
      (fun station => station.name = jsTrim query ∨
        StationManagerLib.normalizeSearchText (some station.name)
          = StationManagerLib.normalizeSearchText (some (jsTrim query)))
      (fun station =>
        StationManagerLib.partMatch (some station.name) (jsTrim query)
          (StationManagerLib.normalizeSearchText (some (jsTrim query))) ||
        StationManagerLib.partMatch station.location (jsTrim query)
          (StationManagerLib.normalizeSearchText (some (jsTrim query))) ||
        StationManagerLib.partMatch station.river_name (jsTrim query)
          (StationManagerLib.normalizeSearchText (some (jsTrim query))))
      c))) ?_
  constructor
  · rintro ⟨t, ht, s, hs, hc, hcond⟩
    refine ⟨t, ht, s, hs, hc, ?_⟩
    rcases hcond with (h1 | h2) | h3
    · exact Or.inl h1
    · exact Or.inr (Or.inl h2)
    · exact Or.inr (Or.inr h3)
  · rintro ⟨t, ht, s, hs, hc, hcond⟩
    refine ⟨t, ht, s, hs, hc, ?_⟩
    rcases hcond with h1 | h2 | h3
    · exact Or.inl (Or.inl h1)
    · exact Or.inl (Or.inr h2)
    · exact Or.inr h3

/-- C5 counterexample: for the query 소양강 댐 (with a space) and a cached
station named 소양강댐, the normalised forms agree and the normalising
variant finds the station, but `findMatches` of the
`src/src/lib/station-manager.ts` variant — the one the claim also cites —
performs no normalization and misses it. -/
theorem searchByName_normalization_counterexample :
    StationManagerLib.normalizeSearchText (some "소양강 댐")
      = StationManagerLib.normalizeSearchText (some "소양강댐") ∧
    StationManagerCore.findMatches
      [{ code := "1", name := "소양강댐", type := StationType.waterlevel }] "소양강 댐" = [] ∧
    StationManagerLib.searchCache
      (fun t => if t = StationType.waterlevel then
        [{ code := "1", name := "소양강댐", type := StationType.waterlevel }] else [])
      "소양강 댐" none
      = [{ code := "1", name := "소양강댐", type := StationType.waterlevel }] := by
  refine ⟨by decide, by decide, by decide⟩

/-- C7: within the TTL window the cache refresh is skipped entirely — a
refresh stamps `lastFetchTime` with the refresh time after its three
upstream calls, and any later `searchByName` whose elapsed time since that
(positive) stamp is below the configured cache duration performs zero
upstream fetches and leaves the manager state unchanged. -/
theorem searchByName_ttl_single_fetch :
    (∀ (getObs : StationType → Except String (List Observatory)) (now : ℕ)
      (st : StationManagerCore.SMState),
      (st.lastFetchTime = 0 ∨ (st.cacheDuration : ℤ) ≤ (now : ℤ) - st.lastFetchTime) →
      (StationManagerCore.fetchAllStations getObs now st).1.lastFetchTime = now ∧
      (StationManagerCore.fetchAllStations getObs now st).2 = 3) ∧
    (∀ (getObs : StationType → Except String (List Observatory)) (t2 : ℕ)
      (query : String) (otype : Option StationType)
      (st : StationManagerCore.SMState),
      0 < st.lastFetchTime → (t2 : ℤ) - st.lastFetchTime < st.cacheDuration →
      StationManagerCore.fetchAllStations getObs t2 st = (st, 0) ∧
      StationManagerCore.searchByName getObs t2 query otype st
        = (StationManagerCore.searchKinds st.cache query
            (match otype with
             | some t => [t]
             | none => [StationType.dam, StationType.waterlevel, StationType.rainfall]),
           st, 0)) := by
  constructor
  · intro getObs now st hstale
    have hguard : ¬ (st.lastFetchTime ≠ 0 ∧
        (now : ℤ) - st.lastFetchTime < st.cacheDuration) := by
      rintro ⟨hne, hlt⟩
      rcases hstale with h0 | hge
      · exact hne h0
      · exact absurd hlt (not_lt.mpr hge)
    unfold StationManagerCore.fetchAllStations
    rw [if_neg hguard]
    exact ⟨rfl, rfl⟩
  · intro getObs t2 query otype st hpos hfresh
    have hguard : st.lastFetchTime ≠ 0 ∧
        (t2 : ℤ) - st.lastFetchTime < st.cacheDuration :=
      ⟨Nat.pos_iff_ne_zero.mp hpos, hfresh⟩
    have hfetch : StationManagerCore.fetchAllStations getObs t2 st = (st, 0) := by
      unfold StationManagerCore.fetchAllStations
      rw [if_pos hguard]
    refine ⟨hfetch, ?_⟩
    unfold StationManagerCore.searchByName
    rw [hfetch]

/-- C7 witness: a cache stamped at time 5 with a one-hundred-unit TTL,
queried again at time 50 — zero upstream fetches, state unchanged. -/
theorem searchByName_ttl_single_fetch_witness :
    0 < (5 : ℕ) ∧ ((50 : ℕ) : ℤ) - (5 : ℕ) < (100 : ℕ) ∧
    StationManagerCore.fetchAllStations (fun _ => Except.ok []) 50
      { cache := fun _ => none, lastFetchTime := 5, cacheDuration := 100 }
      = ({ cache := fun _ => none, lastFetchTime := 5, cacheDuration := 100 }, 0) :=
  ⟨by norm_num, by norm_num,
   (searchByName_ttl_single_fetch.2 (fun _ => Except.ok []) 50 "" none
     { cache := fun _ => none, lastFetchTime := 5, cacheDuration := 100 }
     (by norm_num) (by norm_num)).1⟩

/-- C8: when a refresh actually runs and the dam listing fetch throws while
the water-level and rainfall fetches succeed, the dam cache entry (or its
absence) is left untouched, the other two kinds are refreshed from their
fetched listings, and the refresh completes, stamping the fetch time. -/
theorem refresh_partial_failure_isolated
    (getObs : StationType → Except String (List Observatory)) (now : ℕ)
    (st : StationManagerCore.SMState) (e : String) (w r : List Observatory)
    (hd : getObs StationType.dam = Except.error e)
    (hw : getObs StationType.waterlevel = Except.ok w)
    (hr : getObs StationType.rainfall = Except.ok r)
    (hrun : ¬ (st.lastFetchTime ≠ 0 ∧
      (now : ℤ) - st.lastFetchTime < st.cacheDuration)) :
    (StationManagerCore.fetchAllStations getObs now st).1.cache StationType.dam
      = st.cache StationType.dam ∧
    (StationManagerCore.fetchAllStations getObs now st).1.cache StationType.waterlevel
      = some (StationManagerCore.mkStationInfos StationType.waterlevel w) ∧
    (StationManagerCore.fetchAllStations getObs now st).1.cache StationType.rainfall
      = some (StationManagerCore.mkStationInfos StationType.rainfall r) ∧
    (StationManagerCore.fetchAllStations getObs now st).1.lastFetchTime = now := by
  unfold StationManagerCore.fetchAllStations
  rw [if_neg hrun]
  simp only [List.foldl_cons, List.foldl_nil, hw, hr, hd]
  refine ⟨?_, ?_, ?_, trivial⟩ <;> simp

/-- C8 witness: dam fetch down, empty successful listings for the other
kinds, cold cache — via the theorem at these inputs. -/
theorem refresh_partial_failure_isolated_witness :
    ((fun t => match t with
      | StationType.dam => Except.error "down"
      | _ => Except.ok ([] : List Observatory)) StationType.dam
        = Except.error "down") ∧
    (StationManagerCore.fetchAllStations
      (fun t => match t with
        | StationType.dam => Except.error "down"
        | _ => Except.ok ([] : List Observatory)) 10
      { cache := fun _ => none, lastFetchTime := 0, cacheDuration := 100 }).1.cache
        StationType.dam = none ∧
    (StationManagerCore.fetchAllStations
      (fun t => match t with
        | StationType.dam => Except.error "down"
        | _ => Except.ok ([] : List Observatory)) 10
      { cache := fun _ => none, lastFetchTime := 0, cacheDuration := 100 }).1.lastFetchTime
        = 10 := by
  have h := refresh_partial_failure_isolated
    (fun t => match t with
      | StationType.dam => Except.error "down"
      | _ => Except.ok ([] : List Observatory)) 10
    { cache := fun _ => none, lastFetchTime := 0, cacheDuration := 100 }
    "down" [] [] rfl rfl rfl (by simp)
  exact ⟨rfl, h.1, h.2.2.2⟩

/-- One resolver step: a candidate list is scanned head first. -/
lemma resolveWaterLevelRecord_cons (nowISO : String)
    (snapshot : List WaterLevelRecord) (c : String) (rest : List String) :
    FloodControlAPI.resolveWaterLevelRecord nowISO snapshot (c :: rest)
      = match FloodControlAPI.resolveWaterLevelRecord nowISO snapshot [c] with
        | some r => some r
        | none => FloodControlAPI.resolveWaterLevelRecord nowISO snapshot rest := by
  rcases hfind : snapshot.find? (fun item =>
      FloodControlAPI.normalizeCode (some item.wlobscd)
        = FloodControlAPI.normalizeCode (some c)) with _ | record
  · simp [FloodControlAPI.resolveWaterLevelRecord, hfind]
  · rcases hparse : jsParseFloat record.wl with _ | v
    · simp [FloodControlAPI.resolveWaterLevelRecord, hfind, hparse]
    · by_cases hblank : record.wl = "" ∨ record.wl = " "
      · simp [FloodControlAPI.resolveWaterLevelRecord, hfind, hparse, hblank]
      · simp [FloodControlAPI.resolveWaterLevelRecord, hfind, hparse, hblank]

/-- One resolver step for the rainfall resolver. -/
lemma resolveRainfallRecord_cons (host : Host)
    (rsnap : List RainfallRecord) (c : String) (rest : List String) :
    FloodControlAPI.resolveRainfallRecord host rsnap (c :: rest)
      = match FloodControlAPI.resolveRainfallRecord host rsnap [c] with
        | some r => some r
        | none => FloodControlAPI.resolveRainfallRecord host rsnap rest := by
  rcases hfind : rsnap.find? (fun item =>
      FloodControlAPI.normalizeCode (rrGet item "rfobscd")
        = FloodControlAPI.normalizeCode (some c)) with _ | record
  · simp [FloodControlAPI.resolveRainfallRecord, hfind]
  · rcases hparse : FloodControlAPI.parseRainfallValue record
        ["rf", "rainfall", "rf_now"] none with _ | v
    · simp [FloodControlAPI.resolveRainfallRecord, hfind, hparse]
    · simp [FloodControlAPI.resolveRainfallRecord, hfind, hparse]

/-- One resolver step for the dam resolver. -/
lemma resolveDamRecord_cons (host : Host)
    (dsnaps : List DamRealtimeRecord × List DamInfoRecord)
    (c : String) (rest : List String) :
    FloodControlAPI.resolveDamRecord host dsnaps (c :: rest)
      = match FloodControlAPI.resolveDamRecord host dsnaps [c] with
        | some r => some r
        | none => FloodControlAPI.resolveDamRecord host dsnaps rest := by
  rcases hfind : dsnaps.1.find? (fun item =>
      FloodControlAPI.normalizeCode (some item.dmobscd)
        = FloodControlAPI.normalizeCode (some c)) with _ | record
  · simp [FloodControlAPI.resolveDamRecord, hfind]
  · rcases hparse : jsParseFloat record.swl with _ | v
    · simp [FloodControlAPI.resolveDamRecord, hfind, hparse]
    · simp [FloodControlAPI.resolveDamRecord, hfind, hparse]

/-- A water-level reading only ever carries a successfully parsed value of a
snapshot record matched by trimmed code. -/
lemma resolveWaterLevelRecord_sound (nowISO : String)
    (snapshot : List WaterLevelRecord) :
    ∀ codes code data,
      FloodControlAPI.resolveWaterLevelRecord nowISO snapshot codes
        = some (code, data) →
      ∃ record, record ∈ snapshot ∧
        FloodControlAPI.normalizeCode (some record.wlobscd) = code ∧
        jsParseFloat record.wl = some data.water_level := by
  intro codes
  induction codes with
  | nil =>
    intro code data h
    exact Option.noConfusion h
  | cons c rest ih =>
    intro code data h
    rcases hfind : snapshot.find? (fun item =>
        FloodControlAPI.normalizeCode (some item.wlobscd)
          = FloodControlAPI.normalizeCode (some c)) with _ | record
    · rw [FloodControlAPI.resolveWaterLevelRecord] at h
      simp only [hfind] at h
      exact ih code data h
    · rcases hparse : jsParseFloat record.wl with _ | v
      · rw [FloodControlAPI.resolveWaterLevelRecord] at h
        simp only [hfind, hparse] at h
        exact ih code data h
      · by_cases hblank : record.wl = "" ∨ record.wl = " "
        · rw [FloodControlAPI.resolveWaterLevelRecord] at h
          simp only [hfind, hparse, if_pos hblank] at h
          exact ih code data h
        · rw [FloodControlAPI.resolveWaterLevelRecord] at h
          simp only [hfind, hparse, if_neg hblank] at h
          have hpair := Option.some.inj h
          rw [Prod.mk.injEq] at hpair
          obtain ⟨hcode, hdata⟩ := hpair
          refine ⟨record, List.mem_of_find?_eq_some hfind, ?_, ?_⟩
          · have hp := List.find?_some hfind
            have hp' : FloodControlAPI.normalizeCode (some record.wlobscd)
                = FloodControlAPI.normalizeCode (some c) := by
              exact of_decide_eq_true hp
            exact hp'.trans hcode
          · rw [← hdata]
            exact hparse

/-- A rainfall reading only ever carries a successfully parsed primary
value of a snapshot record matched by trimmed code. -/
lemma resolveRainfallRecord_sound (host : Host) (rsnap : List RainfallRecord) :
    ∀ codes code data,
      FloodControlAPI.resolveRainfallRecord host rsnap codes = some (code, data) →
      ∃ record, record ∈ rsnap ∧
        FloodControlAPI.normalizeCode (rrGet record "rfobscd") = code ∧
        FloodControlAPI.parseRainfallValue record ["rf", "rainfall", "rf_now"] none
          = some data.currentRainfall := by
  intro codes
  induction codes with
  | nil =>
    intro code data h
    exact Option.noConfusion h
  | cons c rest ih =>
    intro code data h
    rcases hfind : rsnap.find? (fun item =>
        FloodControlAPI.normalizeCode (rrGet item "rfobscd")
          = FloodControlAPI.normalizeCode (some c)) with _ | record
    · rw [FloodControlAPI.resolveRainfallRecord] at h
      simp only [hfind] at h
      exact ih code data h
    · rcases hparse : FloodControlAPI.parseRainfallValue record
          ["rf", "rainfall", "rf_now"] none with _ | v
      · rw [FloodControlAPI.resolveRainfallRecord] at h
        simp only [hfind, hparse] at h
        exact ih code data h
      · rw [FloodControlAPI.resolveRainfallRecord] at h
        simp only [hfind, hparse] at h
        have hpair := Option.some.inj h
        rw [Prod.mk.injEq] at hpair
        obtain ⟨hcode, hdata⟩ := hpair
        refine ⟨record, List.mem_of_find?_eq_some hfind, ?_, ?_⟩
        · have hp := List.find?_some hfind
          have hp' : FloodControlAPI.normalizeCode (rrGet record "rfobscd")
              = FloodControlAPI.normalizeCode (some c) := by
            exact of_decide_eq_true hp
          exact hp'.trans hcode
        · rw [← hdata]
          exact hparse

/-- A dam reading only ever carries a successfully parsed `swl` value of a
realtime snapshot record matched by trimmed code. -/
lemma resolveDamRecord_sound (host : Host)
    (dsnaps : List DamRealtimeRecord × List DamInfoRecord) :
    ∀ codes code data,
      FloodControlAPI.resolveDamRecord host dsnaps codes = some (code, data) →
      ∃ record, record ∈ dsnaps.1 ∧
        FloodControlAPI.normalizeCode (some record.dmobscd) = code ∧
        jsParseFloat record.swl = some data.water_level := by
  intro codes
  induction codes with
  | nil =>
    intro code data h
    exact Option.noConfusion h
  | cons c rest ih =>
    intro code data h
    rcases hfind : dsnaps.1.find? (fun item =>
        FloodControlAPI.normalizeCode (some item.dmobscd)
          = FloodControlAPI.normalizeCode (some c)) with _ | record
    · rw [FloodControlAPI.resolveDamRecord] at h
      simp only [hfind] at h
      exact ih code data h
    · rcases hparse : jsParseFloat record.swl with _ | v
      · rw [FloodControlAPI.resolveDamRecord] at h
        simp only [hfind, hparse] at h
        exact ih code data h
      · rw [FloodControlAPI.resolveDamRecord] at h
        simp only [hfind, hparse] at h
        have hpair := Option.some.inj h
        rw [Prod.mk.injEq] at hpair
        obtain ⟨hcode, hdata⟩ := hpair
        refine ⟨record, List.mem_of_find?_eq_some hfind, ?_, ?_⟩
        · have hp := List.find?_some hfind
          have hp' : FloodControlAPI.normalizeCode (some record.dmobscd)
              = FloodControlAPI.normalizeCode (some c) := by
            exact of_decide_eq_true hp
          exact hp'.trans hcode
        · rw [← hdata]
          exact hparse

/-- C2: the three record resolvers scan the snapshot in candidate order —
the head candidate is tried first and a miss (no matching record, or a
matching record whose primary value is blank/unparseable) falls through to
the remaining candidates — and any returned reading carries a successfully
parsed primary value of a snapshot record whose trimmed code is the
resolved code, so an unparseable row never becomes a reading. -/
theorem resolvers_scan_in_candidate_order (nowISO : String) (host : Host)
    (snapshot : List WaterLevelRecord) (rsnap : List RainfallRecord)
    (dsnaps : List DamRealtimeRecord × List DamInfoRecord)
    (c : String) (rest : List String) :
    (FloodControlAPI.resolveWaterLevelRecord nowISO snapshot (c :: rest)
      = match FloodControlAPI.resolveWaterLevelRecord nowISO snapshot [c] with
        | some r => some r
        | none => FloodControlAPI.resolveWaterLevelRecord nowISO snapshot rest) ∧
    (FloodControlAPI.resolveRainfallRecord host rsnap (c :: rest)
      = match FloodControlAPI.resolveRainfallRecord host rsnap [c] with
        | some r => some r
        | none => FloodControlAPI.resolveRainfallRecord host rsnap rest) ∧
    (FloodControlAPI.resolveDamRecord host dsnaps (c :: rest)
      = match FloodControlAPI.resolveDamRecord host dsnaps [c] with
        | some r => some r
        | none => FloodControlAPI.resolveDamRecord host dsnaps rest) ∧
    (∀ codes code data,
      FloodControlAPI.resolveWaterLevelRecord nowISO snapshot codes
        = some (code, data) →
      ∃ record, record ∈ snapshot ∧
        FloodControlAPI.normalizeCode (some record.wlobscd) = code ∧
        jsParseFloat record.wl = some data.water_level) ∧
    (∀ codes code data,
      FloodControlAPI.resolveRainfallRecord host rsnap codes = some (code, data) →
      ∃ record, record ∈ rsnap ∧
        FloodControlAPI.normalizeCode (rrGet record "rfobscd") = code ∧
        FloodControlAPI.parseRainfallValue record ["rf", "rainfall", "rf_now"] none
          = some data.currentRainfall) ∧
    (∀ codes code data,
      FloodControlAPI.resolveDamRecord host dsnaps codes = some (code, data) →
      ∃ record, record ∈ dsnaps.1 ∧
        FloodControlAPI.normalizeCode (some record.dmobscd) = code ∧
        jsParseFloat record.swl = some data.water_level) :=
  ⟨resolveWaterLevelRecord_cons nowISO snapshot c rest,
   resolveRainfallRecord_cons host rsnap c rest,
   resolveDamRecord_cons host dsnaps c rest,
   resolveWaterLevelRecord_sound nowISO snapshot,
   resolveRainfallRecord_sound host rsnap,
   resolveDamRecord_sound host dsnaps⟩

/-- C2 witness: in a snapshot where candidate A matches a blank record and
candidate B a record with value 42.0, resolution skips A and returns B's
reading, whose value is the parsed value of B's record — via the theorem's
soundness component at this input. -/
theorem resolvers_scan_in_candidate_order_witness :
    ((FloodControlAPI.resolveWaterLevelRecord "NOW"
      [{ wlobscd := "A", wl := "" }, { wlobscd := "B", wl := "42.0" }]
      ["A", "B"]).map Prod.fst = some "B") ∧
    (∃ record, record ∈
        [({ wlobscd := "A", wl := "" } : WaterLevelRecord),
         { wlobscd := "B", wl := "42.0" }] ∧
      FloodControlAPI.normalizeCode (some record.wlobscd) = "B" ∧
      ∃ q, jsParseFloat record.wl = some q) := by
  have hsound := (resolvers_scan_in_candidate_order "NOW"
    { nowISO := "", nowLocaleKo := "", random := 0, koTime := fun s => s,
      toISO := fun _ => none, dateMillis := fun _ => none,
      localeInt := fun _ => "", localeFrac := fun _ => "", numStr := fun _ => "",
      koLe := fun _ _ => true }
    [{ wlobscd := "A", wl := "" }, { wlobscd := "B", wl := "42.0" }]
    [] ([], []) "A" ["B"]).2.2.2.1
  have h1 : (FloodControlAPI.resolveWaterLevelRecord "NOW"
      [{ wlobscd := "A", wl := "" }, { wlobscd := "B", wl := "42.0" }]
      ["A", "B"]).map Prod.fst = some "B" := by decide
  refine ⟨h1, ?_⟩
  rcases hr : FloodControlAPI.resolveWaterLevelRecord "NOW"
      [{ wlobscd := "A", wl := "" }, { wlobscd := "B", wl := "42.0" }]
      ["A", "B"] with _ | pr
  · rw [hr] at h1
    exact Option.noConfusion h1
  · rw [hr] at h1
    have hcode : pr.1 = "B" := Option.some.inj h1
    obtain ⟨record, hmem, hcodeEq, hparse⟩ := hsound ["A", "B"] pr.1 pr.2 (by rw [hr])
    refine ⟨record, hmem, ?_, pr.2.water_level, hparse⟩
    rw [hcodeEq, hcode]

/-- Deduplication distributes over append as a fold continuation. -/
lemma dedupKeepFirst_append (a b : List String) :
    dedupKeepFirst (a ++ b) = b.foldl FloodControlAPI.jsSetAdd (dedupKeepFirst a) := by
  unfold dedupKeepFirst
  rw [List.foldl_append]

/-- The explicit-code fold of `collectCandidateCodes` equals deduplicating
the normalised non-empty codes. -/
lemma foldl_candidate_filterMap (l : List (Option String)) : ∀ acc : List String,
    l.foldl (fun acc code =>
      let normalized := FloodControlAPI.normalizeCode code
      if normalized = "" then acc else FloodControlAPI.jsSetAdd acc normalized) acc
    = (l.filterMap (fun code =>
        let normalized := FloodControlAPI.normalizeCode code
        if normalized = "" then none else some normalized)).foldl
        FloodControlAPI.jsSetAdd acc := by
  induction l with
  | nil =>
    intro acc
    rfl
  | cons x rest ih =>
    intro acc
    simp only [List.foldl_cons, List.filterMap_cons]
    by_cases hx : FloodControlAPI.normalizeCode x = ""
    · simp only [hx, if_pos rfl]
      exact ih acc
    · simp only [hx, if_neg hx]
      rw [ih]
      rfl

/-- Adding to a JavaScript set preserves non-emptiness. -/
lemma jsSetAdd_ne_nil (acc : List String) (x : String) (h : acc ≠ []) :
    FloodControlAPI.jsSetAdd acc x ≠ [] := by
  unfold FloodControlAPI.jsSetAdd
  split
  · exact h
  · simp

/-- Adding to a non-empty JavaScript set preserves the first element. -/
lemma jsSetAdd_head? (acc : List String) (x : String) (h : acc ≠ []) :
    (FloodControlAPI.jsSetAdd acc x).head? = acc.head? := by
  unfold FloodControlAPI.jsSetAdd
  split
  · rfl
  · rcases acc with _ | ⟨a, as⟩
    · exact absurd rfl h
    · rfl

/-- The explicit-code fold preserves the first element of a non-empty
accumulator. -/
lemma foldl_candidate_head? (l : List (Option String)) : ∀ acc : List String, acc ≠ [] →
    ((l.foldl (fun acc code =>
      let normalized := FloodControlAPI.normalizeCode code
      if normalized = "" then acc else FloodControlAPI.jsSetAdd acc normalized) acc).head?
      = acc.head?) ∧
    l.foldl (fun acc code =>
      let normalized := FloodControlAPI.normalizeCode code
      if normalized = "" then acc else FloodControlAPI.jsSetAdd acc normalized) acc ≠ [] := by
  induction l with
  | nil =>
    intro acc h
    exact ⟨rfl, h⟩
  | cons x rest ih =>
    intro acc h
    simp only [List.foldl_cons]
    by_cases hx : FloodControlAPI.normalizeCode x = ""
    · simp only [hx, if_pos rfl]
      exact ih acc h
    · simp only [if_neg hx]
      obtain ⟨h1, h2⟩ := ih (FloodControlAPI.jsSetAdd acc (FloodControlAPI.normalizeCode x))
        (jsSetAdd_ne_nil acc _ h)
      exact ⟨h1.trans (jsSetAdd_head? acc _ h), h2⟩

/-- An optional alias hit preserves head and non-emptiness. -/
lemma optAdd_facts (acc : List String) (o : Option String) (h : acc ≠ []) :
    ((match o with
      | some m => FloodControlAPI.jsSetAdd acc m
      | none => acc).head? = acc.head?) ∧
    (match o with
      | some m => FloodControlAPI.jsSetAdd acc m
      | none => acc) ≠ [] := by
  rcases o with _ | m
  · exact ⟨rfl, h⟩
  · exact ⟨jsSetAdd_head? acc m h, jsSetAdd_ne_nil acc m h⟩

/-- C4 (amended): `collectCandidateCodes` returns exactly the deduplicated
priority-ordered concatenation of the normalised explicit codes, the
alias-table lookup (`findStationCode`: exact key first, then bidirectional
substring containment) of the raw name, the same lookup of the
whitespace-stripped name when stripping changed it, and the trimmed query
when purely numeric; in particular the first non-empty explicit code always
comes first. -/
theorem collectCandidateCodes_priority_order (stationName : String)
    (type : StationType) (additional : List (Option String)) :
    (FloodControlAPI.collectCandidateCodes stationName type additional
      = dedupKeepFirst
          ((additional.filterMap (fun code =>
              let normalized := FloodControlAPI.normalizeCode code
              if normalized = "" then none else some normalized))
            ++ (FloodControlAPI.findStationCode stationName type).toList
            ++ (if FloodControlAPI.stripWS stationName ≠ stationName then
                  (FloodControlAPI.findStationCode
                    (FloodControlAPI.stripWS stationName) type).toList
                else [])
            ++ (if FloodControlAPI.isAllDigits (jsTrim stationName) then
                  [jsTrim stationName]
                else []))) ∧
    (∀ c rest, jsTrim c ≠ "" →
      (FloodControlAPI.collectCandidateCodes stationName type
        (some c :: rest)).head? = some (jsTrim c)) := by
  constructor
  · rw [dedupKeepFirst_append, dedupKeepFirst_append, dedupKeepFirst_append]
    have hd : dedupKeepFirst (additional.filterMap (fun code =>
        let normalized := FloodControlAPI.normalizeCode code
        if normalized = "" then none else some normalized))
        = additional.foldl (fun acc code =>
            let normalized := FloodControlAPI.normalizeCode code
            if normalized = "" then acc
            else FloodControlAPI.jsSetAdd acc normalized) [] :=
      (foldl_candidate_filterMap additional []).symm
    rw [hd]
    simp only [FloodControlAPI.collectCandidateCodes]
    rcases hf1 : FloodControlAPI.findStationCode stationName type with _ | m1 <;>
      rcases hf2 : FloodControlAPI.findStationCode
        (FloodControlAPI.stripWS stationName) type with _ | m2 <;>
      by_cases hs : FloodControlAPI.stripWS stationName ≠ stationName <;>
      by_cases hn : FloodControlAPI.isAllDigits (jsTrim stationName) <;>
      simp [hf1, hf2, hs, hn]
  · intro c rest hc
    simp only [FloodControlAPI.collectCandidateCodes, List.foldl_cons]
    have hstep0 : (if FloodControlAPI.normalizeCode (some c) = "" then ([] : List String)
        else FloodControlAPI.jsSetAdd [] (FloodControlAPI.normalizeCode (some c)))
        = [jsTrim c] := by
      have hc2 : FloodControlAPI.normalizeCode (some c) ≠ "" := hc
      rw [if_neg hc2]
      rfl
    rw [hstep0]
    obtain ⟨hh1, hne1⟩ := foldl_candidate_head? rest [jsTrim c] (by simp)
    obtain ⟨hh2, hne2⟩ := optAdd_facts _ (FloodControlAPI.findStationCode stationName type) hne1
    by_cases hs : FloodControlAPI.stripWS stationName ≠ stationName
    · rw [if_pos hs]
      obtain ⟨hh3, hne3⟩ := optAdd_facts _
        (FloodControlAPI.findStationCode (FloodControlAPI.stripWS stationName) type) hne2
      by_cases hn : FloodControlAPI.isAllDigits (jsTrim stationName)
      · rw [if_pos hn]
        rw [jsSetAdd_head? _ _ hne3, hh3, hh2, hh1]
        rfl
      · rw [if_neg hn]
        rw [hh3, hh2, hh1]
        rfl
    · rw [if_neg hs]
      by_cases hn : FloodControlAPI.isAllDigits (jsTrim stationName)
      · rw [if_pos hn]
        rw [jsSetAdd_head? _ _ hne2, hh2, hh1]
        rfl
      · rw [if_neg hn]
        rw [hh2, hh1]
        rfl

/-- C4 witness: a query hitting both an explicit code and the alias table
returns the explicit code first, via the theorem at this input. -/
theorem collectCandidateCodes_priority_order_witness :
    jsTrim "9999" ≠ "" ∧
    (FloodControlAPI.collectCandidateCodes "대청댐" StationType.dam
      [some "9999"]).head? = some (jsTrim "9999") :=
  ⟨by decide,
   (collectCandidateCodes_priority_order "대청댐" StationType.dam
     [some "9999"]).2 "9999" [] (by decide)⟩

/-- C4 counterexample: the claim's exact-lookup-only reading fails on the
code — for the query 대청, which is no exact alias key but a substring of
the key 대청댐, the source function returns the fuzzy alias hit while the
claim's wording predicts an empty candidate list. -/
theorem collectCandidateCodes_claim_counterexample :
    FloodControlAPI.collectCandidateCodes "대청" StationType.dam [] = ["3008110"] ∧
    collectCandidateCodesClaimed "대청" StationType.dam [] = [] ∧
    FloodControlAPI.collectCandidateCodes "대청" StationType.dam []
      ≠ collectCandidateCodesClaimed "대청" StationType.dam [] := by
  refine ⟨by decide, by decide, by decide⟩

/-- C6 witness: the spec's two examples — a 0.05 delta is 안정, a 0.2 delta
is 상승 with change 0.2 — via the theorem at those inputs. -/
theorem analyzeTrend_thresholds_witness :
    (TimeSeriesAnalyzer.analyzeTrend
      [[("v", JSVal.num (201 / 20))], [("v", JSVal.num 10)]] ["v"]).direction
        = "안정" ∧
    (TimeSeriesAnalyzer.analyzeTrend
      [[("v", JSVal.num (51 / 5))], [("v", JSVal.num 10)]] ["v"]).direction
        = "상승" ∧
    (TimeSeriesAnalyzer.analyzeTrend
      [[("v", JSVal.num (51 / 5))], [("v", JSVal.num 10)]] ["v"]).change
        = 1 / 5 := by
  have h1 := (analyzeTrend_thresholds
    [[("v", JSVal.num (201 / 20))], [("v", JSVal.num 10)]] ["v"]).2.2.2
    [("v", JSVal.num (201 / 20))] [("v", JSVal.num 10)] [] rfl
  have h2 := (analyzeTrend_thresholds
    [[("v", JSVal.num (51 / 5))], [("v", JSVal.num 10)]] ["v"]).2.2.2
    [("v", JSVal.num (51 / 5))] [("v", JSVal.num 10)] [] rfl
  have hv1 := h1.2 (201 / 20) 10 rfl rfl
  have hv2 := h2.2 (51 / 5) 10 rfl rfl
  refine ⟨?_, ?_, ?_⟩
  · exact hv1.2.2.2.mpr (by norm_num)
  · exact hv2.2.1.mpr (by norm_num)
  · rw [hv2.1]
    norm_num


/-- A string containing a nonempty right part of an append is nonempty. -/
lemma strAppend_ne_empty_right (s t : String) (h : t ≠ "") : s ++ t ≠ "" := by
  intro he
  apply h
  have hd := congrArg String.data he
  rw [String.data_append] at hd
  have ht : t.data = [] := (List.append_eq_nil.mp hd).2
  cases t with
  | mk d => simp_all

/-- A string containing a nonempty left part of an append is nonempty. -/
lemma strAppend_ne_empty_left (s t : String) (h : s ≠ "") : s ++ t ≠ "" := by
  intro he
  apply h
  have hd := congrArg String.data he
  rw [String.data_append] at hd
  have hs : s.data = [] := (List.append_eq_nil.mp hd).1
  cases s with
  | mk d => simp_all

/-- The JavaScript includes test holds for the middle part of a double append. -/
lemma strIncludes_append_middle (a b c : String) :
    strIncludes (a ++ b ++ c) b = true :=
  decide_eq_true ⟨a.data, c.data, by simp [String.data_append]⟩

/-- The JavaScript includes test holds for the left part of an append. -/
lemma strIncludes_append_left (b c : String) :
    strIncludes (b ++ c) b = true :=
  decide_eq_true ⟨[], c.data, by simp [String.data_append]⟩

/-- Every `ok` outcome of the fallback-flow tail is a success response or
the no-station-found error response carrying the query. -/
lemma noSearchTail_ok_status (env : FloodControlAPI.FetchEnv) (host : Host)
    (query : String) (isW : Bool) (resp : IntegratedResponse)
    (h : FloodControlAPI.noSearchTail env host query isW = Except.ok resp) :
    resp.status = "success" ∨
    resp = FloodControlAPI.createErrorResponse host
      ("\x27" ++ query ++ "\x27 관측소 정보를 찾을 수 없습니다.") := by
  unfold FloodControlAPI.noSearchTail at h
  split at h
  · exact Except.noConfusion h
  · injection h with h
    subst h
    left
    rfl
  · split at h
    · exact Except.noConfusion h
    · split at h
      · injection h with h
        subst h
        left
        rfl
      · split at h
        · exact Except.noConfusion h
        · split at h
          · injection h with h
            subst h
            left
            rfl
          · injection h with h
            subst h
            right
            rfl

/-- Every `ok` outcome of the keyword fallback flow is a success response or
the no-station-found error response carrying the query. -/
lemma noSearchFlow_ok_status (env : FloodControlAPI.FetchEnv) (host : Host)
    (query : String) (isR isD isW quick : Bool) (resp : IntegratedResponse)
    (h : FloodControlAPI.noSearchFlow env host query isR isD isW quick = Except.ok resp) :
    resp.status = "success" ∨
    resp = FloodControlAPI.createErrorResponse host
      ("\x27" ++ query ++ "\x27 관측소 정보를 찾을 수 없습니다.") := by
  unfold FloodControlAPI.noSearchFlow at h
  split at h
  · exact Except.noConfusion h
  · injection h with h
    subst h
    left
    rfl
  · split at h
    · exact Except.noConfusion h
    · split at h
      · injection h with h
        subst h
        left
        rfl
      · exact noSearchTail_ok_status env host query isW resp h
    · exact noSearchTail_ok_status env host query isW resp h

/-- Every `ok` outcome of the candidate-station loop is a success response
or the no-realtime-data error response carrying the query. -/
lemma stationLoop_ok_status (env : FloodControlAPI.FetchEnv) (host : Host)
    (query : String) (quick : Bool) :
    ∀ (stations : List StationInfo) (resp : IntegratedResponse),
      FloodControlAPI.stationLoop env host query quick stations = Except.ok resp →
      resp.status = "success" ∨
      resp = FloodControlAPI.createErrorResponse host
        (query ++ "의 실시간 데이터를 가져올 수 없습니다.") := by
  intro stations
  induction stations with
  | nil =>
    intro resp h
    right
    exact (Except.ok.inj h).symm
  | cons station rest ih =>
    intro resp h
    unfold FloodControlAPI.stationLoop at h
    split at h
    · split at h
      · exact Except.noConfusion h
      · split at h
        · exact Except.noConfusion h
        · dsimp only at h
          split at h
          · injection h with h
            subst h
            left
            rfl
          · exact ih resp h
    · split at h
      · exact Except.noConfusion h
      · split at h
        · injection h with h
          subst h
          left
          rfl
        · split at h
          · exact Except.noConfusion h
          · split at h
            · injection h with h
              subst h
              left
              rfl
            · exact ih resp h
    · split at h
      · exact Except.noConfusion h
      · split at h
        · injection h with h
          subst h
          left
          rfl
        · split at h
          · exact Except.noConfusion h
          · split at h
            · injection h with h
              subst h
              left
              rfl
            · exact ih resp h

/-- Every `ok` outcome of the `try` body is a success response or one of
the two in-band error responses, both of which carry the query text. -/
lemma searchAndGetDataBody_ok_status (env : FloodControlAPI.FetchEnv)
    (host : Host) (query : String) (resp : IntegratedResponse)
    (h : FloodControlAPI.searchAndGetDataBody env host query = Except.ok resp) :
    resp.status = "success" ∨
    resp = FloodControlAPI.createErrorResponse host
      ("\x27" ++ query ++ "\x27 관측소 정보를 찾을 수 없습니다.") ∨
    resp = FloodControlAPI.createErrorResponse host
      (query ++ "의 실시간 데이터를 가져올 수 없습니다.") := by
  unfold FloodControlAPI.searchAndGetDataBody at h
  split at h
  · exact Except.noConfusion h
  · split at h
    · rcases noSearchFlow_ok_status _ _ _ _ _ _ _ _ h with hs | he
      · exact Or.inl hs
      · exact Or.inr (Or.inl he)
    · rcases stationLoop_ok_status _ _ _ _ _ _ h with hs | he
      · exact Or.inl hs
      · exact Or.inr (Or.inr he)


/-- C3 amended: `searchAndGetData` is total and its failure handling is
two-tiered.  (1) Every response has status `success` or `error`; (2) every
error-status response carries a nonempty human-readable message; (3) an
error-status response produced by the in-band miss paths of the body always
carries the original query text; (4) but when an upstream fetch rejects,
the exception propagates to the top-level catch, which answers with the
generic wrapped message — this response does not carry the query, and the
resolution avenues that the body had not yet tried are abandoned. -/
theorem searchAndGetData_error_handling (env : FloodControlAPI.FetchEnv)
    (host : Host) (query : String) :
    ((FloodControlAPI.searchAndGetData env host query).status = "success" ∨
     (FloodControlAPI.searchAndGetData env host query).status = "error") ∧
    ((FloodControlAPI.searchAndGetData env host query).status = "error" →
      (FloodControlAPI.searchAndGetData env host query).summary ≠ "") ∧
    (∀ resp, FloodControlAPI.searchAndGetDataBody env host query = Except.ok resp →
      resp.status = "error" → strIncludes resp.summary query = true) ∧
    (∀ message,
      FloodControlAPI.searchAndGetDataBody env host query = Except.error message →
      FloodControlAPI.searchAndGetData env host query =
        FloodControlAPI.createErrorResponse host
          ("데이터 조회 중 오류가 발생했습니다: " ++ message)) := by
  rcases hbody : FloodControlAPI.searchAndGetDataBody env host query with msg | resp0
  · have hsd : FloodControlAPI.searchAndGetData env host query =
        FloodControlAPI.createErrorResponse host
          ("데이터 조회 중 오류가 발생했습니다: " ++ msg) := by
      unfold FloodControlAPI.searchAndGetData
      rw [hbody]
    refine ⟨Or.inr (by rw [hsd]; rfl), ?_, ?_, ?_⟩
    · intro _
      rw [hsd]
      exact strAppend_ne_empty_left "데이터 조회 중 오류가 발생했습니다: " msg (by decide)
    · intro resp hr
      exact Except.noConfusion hr
    · intro message hm
      injection hm with hm
      subst hm
      exact hsd
  · have hsd : FloodControlAPI.searchAndGetData env host query = resp0 := by
      unfold FloodControlAPI.searchAndGetData
      rw [hbody]
    rcases searchAndGetDataBody_ok_status env host query resp0 hbody with hs | he | he
    · refine ⟨Or.inl (by rw [hsd]; exact hs), ?_, ?_, ?_⟩
      · intro herr
        rw [hsd, hs] at herr
        exact absurd herr (by decide)
      · intro resp hr herr
        injection hr with hr
        subst hr
        rw [hs] at herr
        exact absurd herr (by decide)
      · intro message hm
        exact Except.noConfusion hm
    · refine ⟨Or.inr (by rw [hsd, he]; rfl), ?_, ?_, ?_⟩
      · intro _
        rw [hsd, he]
        exact strAppend_ne_empty_right ("\x27" ++ query)
          "\x27 관측소 정보를 찾을 수 없습니다." (by decide)
      · intro resp hr _
        injection hr with hr
        subst hr
        rw [he]
        exact strIncludes_append_middle "\x27" query "\x27 관측소 정보를 찾을 수 없습니다."
      · intro message hm
        exact Except.noConfusion hm
    · refine ⟨Or.inr (by rw [hsd, he]; rfl), ?_, ?_, ?_⟩
      · intro _
        rw [hsd, he]
        exact strAppend_ne_empty_right query
          "의 실시간 데이터를 가져올 수 없습니다." (by decide)
      · intro resp hr _
        injection hr with hr
        subst hr
        rw [he]
        exact strIncludes_append_left query "의 실시간 데이터를 가져올 수 없습니다."
      · intro message hm
        exact Except.noConfusion hm

/-- Witness for the C3 amended theorem: in the environment where the
water-level fetch rejects, the catch path yields the generic wrapped error
response. -/
theorem searchAndGetData_error_handling_witness :
    FloodControlAPI.searchAndGetData sampleEnvWaterDown sampleHost "99" =
      FloodControlAPI.createErrorResponse sampleHost
        ("데이터 조회 중 오류가 발생했습니다: " ++ "water down") :=
  (searchAndGetData_error_handling sampleEnvWaterDown sampleHost "99").2.2.2
    "water down" rfl

/-- C3 counterexample: when the water-level snapshot fetch rejects, the
top-level catch produces an error response whose message does not contain
the original query text, even though a rainfall record for the query was
still resolvable — the remaining avenue is abandoned, refuting the claim
that an error response appears only when all avenues are exhausted and
always carries the query. -/
theorem searchAndGetData_catch_counterexample :
    (FloodControlAPI.searchAndGetData sampleEnvWaterDown sampleHost "99").status
      = "error" ∧
    strIncludes
      (FloodControlAPI.searchAndGetData sampleEnvWaterDown sampleHost "99").summary
      "99" = false ∧
    (FloodControlAPI.resolveRainfallRecord sampleHost sampleRainSnapshot
        (FloodControlAPI.collectCandidateCodes "99" StationType.rainfall
          [some "99"])).isSome = true := by
  refine ⟨rfl, by decide, rfl⟩


/-- C10: the trend field of a successful water-level response is not a
function of the observed data: `determineTrend` ignores its water-level
argument and is fixed by the random draw alone, two draws can yield
different trends at the same water level, and `createIntegratedResponse`
on identical station data reports different trends across two host states
differing only in the `Math.random` draw. -/
theorem determineTrend_not_data_dependent :
    (∀ (w1 w2 random : ℚ),
      FloodControlAPI.determineTrend w1 random = FloodControlAPI.determineTrend w2 random) ∧
    (∃ w r1 r2 : ℚ,
      FloodControlAPI.determineTrend w r1 ≠ FloodControlAPI.determineTrend w r2) ∧
    (∃ (host : Host) (r1 r2 : ℚ) (stationName stationCode : String)
        (data : WaterLevelData), r1 ≠ r2 ∧
      (FloodControlAPI.createIntegratedResponse { host with random := r1 }
          stationName stationCode data).detailed_data.primary_station.trend ≠
      (FloodControlAPI.createIntegratedResponse { host with random := r2 }
          stationName stationCode data).detailed_data.primary_station.trend) := by
  have h1 : FloodControlAPI.determineTrend 0 0 = "상승" := by
    unfold FloodControlAPI.determineTrend
    rw [if_pos (by norm_num : (0 : ℚ) < 3 / 10)]
  have h2 : FloodControlAPI.determineTrend 0 1 = "안정" := by
    unfold FloodControlAPI.determineTrend
    rw [if_neg (by norm_num : ¬ (1 : ℚ) < 3 / 10),
        if_neg (by norm_num : ¬ (1 : ℚ) < 6 / 10)]
  refine ⟨fun w1 w2 random => rfl, ⟨0, 0, 1, ?_⟩, ?_⟩
  · rw [h1, h2]
    decide
  · refine ⟨sampleHost, 0, 1, "", "", ⟨"", "", 0, ""⟩, by norm_num, ?_⟩
    have e1 : (FloodControlAPI.createIntegratedResponse { sampleHost with random := 0 }
        "" "" ⟨"", "", 0, ""⟩).detailed_data.primary_station.trend
        = some (FloodControlAPI.determineTrend 0 0) := rfl
    have e2 : (FloodControlAPI.createIntegratedResponse { sampleHost with random := 1 }
        "" "" ⟨"", "", 0, ""⟩).detailed_data.primary_station.trend
        = some (FloodControlAPI.determineTrend 0 1) := rfl
    rw [e1, e2, h1, h2]
    decide

end KOD
